import Mathlib

/-!
The scx_flash deadline / virtual-time dispatch policy.

Shallow embedding of `scheds/rust/scx_flash/src/bpf/main.bpf.c`, and of the two
bounded retry loops of `scx_lavd` (`introspec.bpf.c`, `sys_stat.bpf.c`).

* `u64` values are natural numbers; every C operation that can wrap is reduced
  modulo `2^64` explicitly (`add64`, `sub64`, `mul64`).
* The task-local storage entry of a task (`task_ctx_stor`) travels with the task
  as an `Option task_ctx`: `none` is the failed lookup of `try_lookup_task_ctx`.
* The values returned by the host (`scx_bpf_now`, the number of queued tasks, the
  idle state of a CPU) are read from explicit arguments or from `State`.
-/

set_option linter.unusedVariables false

namespace ScxFlash

/-! ## Machine arithmetic -/

/-- Reduction of a natural number to an unsigned 64-bit value. -/
def wrap64 (x : Nat) : Nat := x % 18446744073709551616

/-- Addition of `u64` values. -/
def add64 (a b : Nat) : Nat := (a + b) % 18446744073709551616

/-- Subtraction of `u64` values (wraps below zero). -/
def sub64 (a b : Nat) : Nat :=
  (a % 18446744073709551616 + 18446744073709551616 - b % 18446744073709551616)
    % 18446744073709551616

/-- Multiplication of `u64` values. -/
def mul64 (a b : Nat) : Nat := (a * b) % 18446744073709551616

/-- The cast `(s64)x` of a `u64` value. -/
def toS64 (x : Nat) : Int :=
  if x % 18446744073709551616 < 9223372036854775808 then
    ((x % 18446744073709551616 : Nat) : Int)
  else
    ((x % 18446744073709551616 : Nat) : Int) - 18446744073709551616

/-! ## Constants and helpers of the headers (`scx/common.bpf.h`, `intf.h`, kernel) -/

/-- Nanoseconds in a millisecond (kernel time constant, used by `slice_max`). -/
def NSEC_PER_MSEC : Nat := 1000000

/-- Nanoseconds in a second (kernel time constant): the yield-rate window. -/
def NSEC_PER_SEC : Nat := 1000000000

/-- Kernel task flag `PF_KTHREAD` (include/linux/sched.h). -/
def PF_KTHREAD : Nat := 0x00200000

/-- Kernel flag `SCX_TASK_QUEUED` of `p->scx.flags`. -/
def SCX_TASK_QUEUED : Nat := 1

/-- Kernel enqueue flag `SCX_ENQ_PREEMPT` (`1LLU << 32`). -/
def SCX_ENQ_PREEMPT : Nat := 4294967296

/-- Kernel kick flag `SCX_KICK_IDLE`. -/
def SCX_KICK_IDLE : Nat := 1

/-- Kernel default time slice `SCX_SLICE_DFL` (20 ms). -/
def SCX_SLICE_DFL : Nat := 20 * NSEC_PER_MSEC

/-- Modelled from the spec: the macro `MIN` of `scx/common.bpf.h` is not in the
source tree; it is the smaller of its two arguments. -/
def MIN (x y : Nat) : Nat := if x < y then x else y

/-- Modelled from the spec: the macro `MAX` of `scx/common.bpf.h` is not in the
source tree; it is the larger of its two arguments. -/
def MAX (x y : Nat) : Nat := if x > y then x else y

/-- Modelled from the spec: the macro `CLAMP` of `scx/common.bpf.h` is not in the
source tree; the spec says the value is "clamped to `[lo, hi]`". -/
def CLAMP (val lo hi : Nat) : Nat := MIN (MAX val lo) hi

/-- Integer base-2 logarithm by repeated halving, at most `fuel` halvings. -/
def log2_halving : Nat → Nat → Nat
  | 0, _ => 0
  | fuel + 1, v => if 2 ≤ v then log2_halving fuel (v / 2) + 1 else 0

/-- Modelled from the spec: the helper `log2_u64` of `scx/common.bpf.h` is not in
the source tree; the spec calls it `log2`, the integer base-2 logarithm of a
`u64` value (64 halvings exhaust every 64-bit value). -/
def log2_u64 (v : Nat) : Nat := log2_halving 64 v

/-- Modelled from the spec: the helper `time_before` of `scx/common.bpf.h` is not
in the source tree; it is the wrap-aware comparison `(s64)(a - b) < 0`. -/
def time_before (a b : Nat) : Bool := decide (toS64 (sub64 a b) < 0)

/-! ## Configuration and data model -/

/-- Read-only inputs fixed at policy load (`const volatile` globals and the
kernel configuration value `CONFIG_HZ`). -/
structure Config where
  CONFIG_HZ : Nat
  slice_max : Nat
  slice_lag : Nat
  local_kthreads : Bool
  smt_enabled : Bool
deriving DecidableEq, Repr

/-- The values the source gives the tunables, for a kernel with the given tick rate. -/
def default_config (hz : Nat) : Config :=
  ⟨hz, 20 * NSEC_PER_MSEC, 20 * NSEC_PER_MSEC, false, true⟩

/-- Maximum task weight. -/
def MAX_TASK_WEIGHT : Nat := 10000

/-- Maximum amount of voluntary context switches. -/
def MAX_AVG_NVCSW : Nat := 128

/-- Minimum time slice that can be assigned to a task (in ns):
`NSEC_PER_SEC / CONFIG_HZ`. -/
def SLICE_MIN (cfg : Config) : Nat := NSEC_PER_SEC / cfg.CONFIG_HZ

/-- Per-task local storage (`struct task_ctx`). -/
structure task_ctx where
  nvcsw : Nat
  nvcsw_ts : Nat
  avg_nvcsw : Nat
  avg_runtime : Nat
  sum_runtime : Nat
  last_run_at : Nat
  deadline : Nat
  lock_boost : Bool
deriving DecidableEq, Repr

/-- A freshly created task context: task storage is zero-initialised. -/
def task_ctx_zero : task_ctx := ⟨0, 0, 0, 0, 0, 0, 0, false⟩

/-- The fields of `p->scx` the policy reads or writes. -/
structure sched_ext_entity where
  weight : Nat
  slice : Nat
  dsq_vtime : Nat
  flags : Nat
deriving DecidableEq, Repr

/-- The fields of `struct task_struct` the policy reads or writes. `cpu` is the
CPU the task last ran on. -/
structure task_struct where
  pid : Nat
  flags : Nat
  nr_cpus_allowed : Nat
  cpu : Nat
  scx : sched_ext_entity
deriving DecidableEq, Repr

/-- A task together with its entry in `task_ctx_stor` (`none`: no entry, the
lookup `try_lookup_task_ctx` returns NULL). -/
structure Task where
  p : task_struct
  stor : Option task_ctx
deriving DecidableEq, Repr

/-- An insertion into a dispatch queue: the task, the slice, the key when the
insertion is by vtime (`none` for a FIFO insertion), and the enqueue flags. -/
structure dsq_entry where
  pid : Nat
  slice : Nat
  vtime : Option Nat
  enq_flags : Nat
deriving DecidableEq, Repr

/-- Global state of the policy and of the host objects it acts on. -/
structure State where
  vtime_now : Nat
  nr_kthread_dispatches : Nat
  nr_direct_dispatches : Nat
  nr_shared_dispatches : Nat
  shared_dsq : List dsq_entry
  local_dsq : List dsq_entry
  idle_cpus : List Nat
  kicked : List (Nat × Nat)
  error : Option String
deriving DecidableEq, Repr

/-- Return a local task context from a generic task. -/
def try_lookup_task_ctx (t : Task) : Option task_ctx := t.stor

/-! ## Weight and EWMA utilities -/

/-- Exponential weighted moving average:
`(old_val - (old_val >> 2)) + (new_val >> 2)`. -/
def calc_avg (old_val new_val : Nat) : Nat :=
  add64 (sub64 old_val (old_val / 4)) (new_val / 4)

/-- Evaluate the EWMA limited to the range `[low ... high]`. -/
def calc_avg_clamp (old_val new_val low high : Nat) : Nat :=
  CLAMP (calc_avg old_val new_val) low high

/-- Return true if the target task is a kernel thread. -/
def is_kthread (p : task_struct) : Bool := decide (p.flags &&& PF_KTHREAD ≠ 0)

/-- Modelled from the spec: the host call `scx_bpf_dsq_nr_queued(SHARED_DSQ)` is
the "count of tasks currently queued" in the shared queue. -/
def scx_bpf_dsq_nr_queued (s : State) : Nat := s.shared_dsq.length

/-- Return the amount of tasks that are waiting to run. -/
def nr_tasks_waiting (s : State) : Nat := add64 (scx_bpf_dsq_nr_queued s) 1

/-- Return task's weight. -/
def task_weight (p : task_struct) (tctx : task_ctx) : Nat :=
  if tctx.lock_boost then MAX_TASK_WEIGHT else p.scx.weight

/-- Return a value proportionally scaled to the task's priority. -/
def scale_up_fair (p : task_struct) (tctx : task_ctx) (value : Nat) : Nat :=
  mul64 value (task_weight p tctx) / 100

/-- Return a value inversely proportional to the task's priority. -/
def scale_inverse_fair (p : task_struct) (tctx : task_ctx) (value : Nat) : Nat :=
  mul64 value 100 / task_weight p tctx

/-- Return the task's allowed lag. -/
def task_lag (cfg : Config) (p : task_struct) (tctx : task_ctx) : Nat :=
  scale_up_fair p tctx cfg.slice_lag

/-! ## Latency priority and deadline -/

/-- The nice-level to weight table, taken from `fair.c`. -/
def sched_prio_to_weight : List Nat :=
  [88761, 71755, 56483, 46273, 36291,
   29154, 23254, 18705, 14949, 11916,
   9548, 7620, 6100, 4904, 3906,
   3121, 2501, 1991, 1586, 1277,
   1024, 820, 655, 526, 423,
   335, 272, 215, 172, 137,
   110, 87, 70, 56, 45,
   36, 29, 23, 18, 15]

/-- Number of entries of the table (`ARRAY_SIZE`). -/
def max_sched_prio : Nat := sched_prio_to_weight.length

/-- Convert task priority to weight. The second component is the error reported
through `scx_bpf_error`, if any; the value returned with it is 0. -/
def sched_prio_to_latency_weight (prio : Nat) : Nat × Option String :=
  let max_prio := max_sched_prio
  if prio ≥ max_prio then
    (0, some "invalid priority")
  else
    (sched_prio_to_weight.getD (max_prio - prio - 1) 0, none)

/-- The latency priority `task_deadline` computes before the table lookup. -/
def task_lat_prio (p : task_struct) (tctx : task_ctx) : Nat :=
  let avg_run_scaled := scale_inverse_fair p tctx tctx.avg_runtime
  let avg_run_scaled := log2_u64 (add64 avg_run_scaled 1)
  let lat_prio := scale_up_fair p tctx tctx.avg_nvcsw
  let lat_prio := if lat_prio > avg_run_scaled then sub64 lat_prio avg_run_scaled else 0
  MIN lat_prio (max_sched_prio - 1)

/-- Evaluate task's deadline. -/
def task_deadline (p : task_struct) (tctx : task_ctx) : Nat :=
  let lat_weight := (sched_prio_to_latency_weight (task_lat_prio p tctx)).1
  mul64 tctx.avg_runtime 1024 / lat_weight

/-- Return task's evaluated deadline applied to its vruntime. The task and its
context are returned with the writes the function made. -/
def task_vtime (cfg : Config) (vtime_now : Nat) (p : task_struct) (tctx : task_ctx) :
    task_struct × task_ctx × Nat :=
  let min_vruntime := sub64 vtime_now (task_lag cfg p tctx)
  if time_before p.scx.dsq_vtime min_vruntime then
    let p1 : task_struct := { p with scx := { p.scx with dsq_vtime := min_vruntime } }
    let tctx1 : task_ctx :=
      { tctx with deadline := add64 p1.scx.dsq_vtime (task_deadline p1 tctx) }
    (p1, tctx1, tctx1.deadline)
  else
    (p, tctx, tctx.deadline)

/-! ## Time-slice allocation -/

/-- Evaluate task's time slice in function of the total amount of tasks that are
waiting to be dispatched and the task's weight. -/
def task_refill_slice (cfg : Config) (s : State) (t : Task) : Task :=
  match try_lookup_task_ctx t with
  | none => t
  | some tctx =>
    let slice := scale_up_fair t.p tctx (cfg.slice_max / nr_tasks_waiting s)
    { t with p := { t.p with scx :=
        { t.p.scx with slice := CLAMP slice (SLICE_MIN cfg) cfg.slice_max } } }

/-! ## Host queue operations -/

/-- Modelled from the spec: the host call `scx_bpf_dsq_insert_vtime` is not in the
source tree; the shared queue is "a priority queue keyed by each task's computed
deadline (ties broken by insertion order)". Keys are compared wrap-aware. -/
def dsq_insert_vtime (q : List dsq_entry) (e : dsq_entry) : List dsq_entry :=
  match q with
  | [] => [e]
  | x :: xs =>
    if time_before (e.vtime.getD 0) (x.vtime.getD 0) then e :: x :: xs
    else x :: dsq_insert_vtime xs e

/-- Modelled from the spec: the host call `scx_bpf_dsq_insert(p, SCX_DSQ_LOCAL, ..)`
is not in the source tree; it places the task "directly onto a CPU's local run
slot", here the tail of the record of local insertions. -/
def dsq_insert_local (q : List dsq_entry) (e : dsq_entry) : List dsq_entry := q ++ [e]

/-! ## Probe and scheduling callbacks -/

/-- The probe on `vfs_fsync_range`: reset the yield rate of the current task.
Returns the task and the probe's return value. -/
def kprobe_vfs_fsync_range (t : Task) : Task × Int :=
  match try_lookup_task_ctx t with
  | some tctx => ({ t with stor := some { tctx with avg_nvcsw := 0 } }, 0)
  | none => (t, 0)

/-- Pick a target CPU for a task which is being woken up. `cpu` and `is_idle` are
what the host's `scx_bpf_select_cpu_dfl` answered. -/
def flash_select_cpu (s : State) (t : Task) (cpu : Nat) (is_idle : Bool) : State × Nat :=
  if is_idle then
    ({ s with
        local_dsq := dsq_insert_local s.local_dsq ⟨t.p.pid, SCX_SLICE_DFL, none, 0⟩,
        nr_direct_dispatches := add64 s.nr_direct_dispatches 1 }, cpu)
  else
    (s, cpu)

/-- Dispatch all the other tasks that were not dispatched directly in
`flash_select_cpu`. The CPU tested for idleness, `cpu` in the source, is the
task's CPU. -/
def flash_enqueue (cfg : Config) (s : State) (t : Task) (enq_flags : Nat) : State × Task :=
  if is_kthread t.p && (cfg.local_kthreads || decide (t.p.nr_cpus_allowed = 1)) then
    ({ s with
        local_dsq := dsq_insert_local s.local_dsq
          ⟨t.p.pid, SCX_SLICE_DFL, none, enq_flags ||| SCX_ENQ_PREEMPT⟩,
        nr_kthread_dispatches := add64 s.nr_kthread_dispatches 1 }, t)
  else
    match try_lookup_task_ctx t with
    | none => (s, t)
    | some tctx =>
      let r := task_vtime cfg s.vtime_now t.p tctx
      let s1 : State :=
        { s with
          shared_dsq := dsq_insert_vtime s.shared_dsq
            ⟨t.p.pid, SCX_SLICE_DFL, some r.2.2, enq_flags⟩,
          nr_shared_dispatches := add64 s.nr_shared_dispatches 1 }
      let s2 : State :=
        if t.p.cpu ∈ s1.idle_cpus then
          { s1 with
            idle_cpus := s1.idle_cpus.filter (fun c => decide (c ≠ t.p.cpu)),
            kicked := s1.kicked ++ [(t.p.cpu, SCX_KICK_IDLE)] }
        else s1
      (s2, ⟨r.1, some r.2.1⟩)

/-- A CPU is ready to run a task: take the head of the shared queue, or refill
the slice of the previous task when it is still queued. -/
def flash_dispatch (cfg : Config) (s : State) (cpu : Nat) (prev : Option Task) :
    State × Option Task :=
  match s.shared_dsq with
  | e :: rest =>
    ({ s with shared_dsq := rest, local_dsq := dsq_insert_local s.local_dsq e }, prev)
  | [] =>
    match prev with
    | some t =>
      if t.p.scx.flags &&& SCX_TASK_QUEUED ≠ 0 then
        (s, some (task_refill_slice cfg s t))
      else (s, prev)
    | none => (s, none)

/-- A task starts to run on its CPU at time `now`. -/
def flash_running (cfg : Config) (now : Nat) (s : State) (t : Task) : State × Task :=
  let t1 := task_refill_slice cfg s t
  match try_lookup_task_ctx t1 with
  | none => (s, t1)
  | some tctx =>
    let tctx1 : task_ctx := { tctx with last_run_at := now }
    let s1 : State :=
      if time_before s.vtime_now t1.p.scx.dsq_vtime then
        { s with vtime_now := t1.p.scx.dsq_vtime }
      else s
    (s1, ⟨t1.p, some tctx1⟩)

/-- The voluntary context switch counter after the test on the remaining slice. -/
def stopping_nvcsw (p : task_struct) (tctx : task_ctx) : Nat :=
  if p.scx.slice > 0 then add64 tctx.nvcsw 1 else tctx.nvcsw

/-- A task stops running at time `now`. -/
def flash_stopping (now : Nat) (t : Task) (runnable : Bool) : Task :=
  match try_lookup_task_ctx t with
  | none => t
  | some tctx =>
    let tctx : task_ctx := { tctx with nvcsw := stopping_nvcsw t.p tctx }
    let slice := sub64 now tctx.last_run_at
    let tctx : task_ctx := { tctx with sum_runtime := add64 tctx.sum_runtime slice }
    let tctx : task_ctx :=
      { tctx with avg_runtime := calc_avg tctx.avg_runtime tctx.sum_runtime }
    let p : task_struct :=
      { t.p with scx := { t.p.scx with
          dsq_vtime := add64 t.p.scx.dsq_vtime (scale_inverse_fair t.p tctx slice) } }
    let tctx : task_ctx := { tctx with deadline := add64 p.scx.dsq_vtime (task_deadline p tctx) }
    let delta_t : Int := toS64 (sub64 now tctx.nvcsw_ts)
    if delta_t > (NSEC_PER_SEC : Int) then
      let avg_nvcsw := mul64 tctx.nvcsw NSEC_PER_SEC / sub64 now tctx.nvcsw_ts
      let tctx : task_ctx := { tctx with nvcsw := 0, nvcsw_ts := now }
      let tctx : task_ctx :=
        { tctx with avg_nvcsw := calc_avg_clamp tctx.avg_nvcsw avg_nvcsw 0 MAX_AVG_NVCSW }
      ⟨p, some tctx⟩
    else
      ⟨p, some tctx⟩

/-- A task becomes runnable. -/
def flash_runnable (t : Task) (enq_flags : Nat) : Task :=
  match try_lookup_task_ctx t with
  | none => t
  | some tctx => { t with stor := some { tctx with sum_runtime := 0 } }

/-- A task enters the policy at time `now`. -/
def flash_enable (cfg : Config) (now : Nat) (s : State) (t : Task) : State × Task :=
  let p : task_struct := { t.p with scx := { t.p.scx with dsq_vtime := s.vtime_now } }
  match try_lookup_task_ctx t with
  | none =>
    ({ s with error := some "incorrectly initialized task: %d (%s)" }, ⟨p, t.stor⟩)
  | some tctx =>
    let tctx : task_ctx := { tctx with avg_runtime := SLICE_MIN cfg }
    let tctx : task_ctx := { tctx with nvcsw_ts := now }
    let tctx : task_ctx := { tctx with deadline := add64 p.scx.dsq_vtime (task_deadline p tctx) }
    (s, ⟨p, some tctx⟩)

/-- Error number `ENOENT`. -/
def ENOENT : Int := 2

/-- Error number `ENOMEM`. -/
def ENOMEM : Int := 12

/-- A task is created: allocate its context if it has none. `alloc_ok` tells
whether the host can allocate the storage; new storage is zeroed. Returns the task
and the callback's return value. -/
def flash_init_task (t : Task) (alloc_ok : Bool) : Task × Int :=
  match t.stor with
  | some _ => (t, 0)
  | none => if alloc_ok then ({ t with stor := some task_ctx_zero }, 0) else (t, -ENOMEM)

/-- The exit information the host hands to `flash_exit`. -/
structure scx_exit_info where
  kind : Nat
  exit_code : Int
deriving DecidableEq, Repr

/-- The whole system: the global state, the tasks with their contexts, the number
of possible CPUs recorded by `flash_init` and the exit information recorded by
`flash_exit`. A task is named by its position in `tasks`. -/
structure System where
  st : State
  tasks : List Task
  nr_cpu_ids : Nat
  uei : Option scx_exit_info
deriving DecidableEq, Repr

/-- Policy activation: record the number of possible CPUs (`nr`, the answer of
`scx_bpf_nr_cpu_ids`) and create the shared queue; `err` is the result of
`scx_bpf_create_dsq`. Returns the system and the callback's return value. -/
def flash_init (sys : System) (nr : Nat) (err : Int) : System × Int :=
  let sys1 : System := { sys with nr_cpu_ids := nr }
  if err ≠ 0 then
    ({ sys1 with st := { sys1.st with error := some "failed to create shared DSQ: %d" } }, err)
  else
    (sys1, 0)

/-- Policy deactivation: record the exit information. -/
def flash_exit (sys : System) (ei : scx_exit_info) : System :=
  { sys with uei := some ei }

/-- One call of the host into the policy. Tasks are named by their position;
`now`, `cpu`, `is_idle`, `alloc_ok`, `nr` and `err` are the answers of the host
calls made by the callback. -/
inductive Event where
  | fsync (i : Nat)
  | select_cpu (i cpu : Nat) (is_idle : Bool)
  | enqueue (i enq_flags : Nat)
  | dispatch (cpu : Nat) (prev : Option Nat)
  | running (i now : Nat)
  | stopping (i now : Nat) (runnable : Bool)
  | runnable (i enq_flags : Nat)
  | enable (i now : Nat)
  | init_task (i : Nat) (alloc_ok : Bool)
  | init (nr : Nat) (err : Int)
  | exit (ei : scx_exit_info)
deriving DecidableEq, Repr

/-- The effect of one call on the system. A call that names a task that does not
exist has no effect. -/
def step (cfg : Config) (sys : System) : Event → System
  | .fsync i =>
    match sys.tasks[i]? with
    | some t => { sys with tasks := sys.tasks.set i (kprobe_vfs_fsync_range t).1 }
    | none => sys
  | .select_cpu i cpu is_idle =>
    match sys.tasks[i]? with
    | some t => { sys with st := (flash_select_cpu sys.st t cpu is_idle).1 }
    | none => sys
  | .enqueue i enq_flags =>
    match sys.tasks[i]? with
    | some t =>
      { sys with st := (flash_enqueue cfg sys.st t enq_flags).1,
                 tasks := sys.tasks.set i (flash_enqueue cfg sys.st t enq_flags).2 }
    | none => sys
  | .dispatch cpu prev =>
    match prev with
    | some i =>
      match sys.tasks[i]? with
      | some t =>
        { sys with st := (flash_dispatch cfg sys.st cpu (some t)).1,
                   tasks := sys.tasks.set i ((flash_dispatch cfg sys.st cpu (some t)).2.getD t) }
      | none => { sys with st := (flash_dispatch cfg sys.st cpu none).1 }
    | none => { sys with st := (flash_dispatch cfg sys.st cpu none).1 }
  | .running i now =>
    match sys.tasks[i]? with
    | some t =>
      { sys with st := (flash_running cfg now sys.st t).1,
                 tasks := sys.tasks.set i (flash_running cfg now sys.st t).2 }
    | none => sys
  | .stopping i now runnable =>
    match sys.tasks[i]? with
    | some t => { sys with tasks := sys.tasks.set i (flash_stopping now t runnable) }
    | none => sys
  | .runnable i enq_flags =>
    match sys.tasks[i]? with
    | some t => { sys with tasks := sys.tasks.set i (flash_runnable t enq_flags) }
    | none => sys
  | .enable i now =>
    match sys.tasks[i]? with
    | some t =>
      { sys with st := (flash_enable cfg now sys.st t).1,
                 tasks := sys.tasks.set i (flash_enable cfg now sys.st t).2 }
    | none => sys
  | .init_task i alloc_ok =>
    match sys.tasks[i]? with
    | some t => { sys with tasks := sys.tasks.set i (flash_init_task t alloc_ok).1 }
    | none => sys
  | .init nr err => (flash_init sys nr err).1
  | .exit ei => flash_exit sys ei

/-- The system after a sequence of calls. -/
def run (cfg : Config) (sys : System) (evs : List Event) : System :=
  evs.foldl (step cfg) sys

/-! ## CPU contexts and sibling masks -/

/-- Per-CPU context: the sibling mask, `none` while the pointer `llc_mask` is
NULL, otherwise the list of the CPU ids whose bit is set. -/
structure cpu_ctx where
  llc_mask : Option (List Nat)
deriving DecidableEq, Repr

/-- The per-CPU array `cpu_ctx_stor` (position = CPU id) and the numbers of masks
the policy has created and released so far. -/
structure CpuStore where
  cpu_ctx_stor : List cpu_ctx
  created : Nat
  released : Nat
deriving DecidableEq, Repr

/-- The argument of `enable_sibling_cpu` (`struct domain_arg`). -/
structure domain_arg where
  cpu_id : Nat
  sibling_cpu_id : Nat
deriving DecidableEq, Repr

/-- Return a CPU context: the lookup fails for a CPU id outside the array. -/
def try_lookup_cpu_ctx (cs : CpuStore) (cpu : Nat) : Option cpu_ctx := cs.cpu_ctx_stor[cpu]?

/-- Modelled from the spec: the host call `bpf_cpumask_set_cpu` is not in the source
tree; it registers the CPU in the mask (sets its bit). -/
def bpf_cpumask_set_cpu (cpu : Nat) (mask : List Nat) : List Nat :=
  if cpu ∈ mask then mask else cpu :: mask

/-- Allocate/re-allocate a new cpumask for the slot `cpumask` of CPU `cpu`.
`alloc_ok` tells whether `bpf_cpumask_create` succeeds. The new mask is exchanged
into the slot and the mask found there, if any, is released. -/
def calloc_cpumask (cs : CpuStore) (cpu : Nat) (alloc_ok : Bool) : CpuStore × Int :=
  if alloc_ok = false then
    (cs, -ENOMEM)
  else
    let cs1 : CpuStore := { cs with created := cs.created + 1 }
    let old := (cs1.cpu_ctx_stor[cpu]?).bind (fun c => c.llc_mask)
    let cs2 : CpuStore := { cs1 with cpu_ctx_stor := cs1.cpu_ctx_stor.set cpu ⟨some []⟩ }
    match old with
    | some _ => ({ cs2 with released := cs2.released + 1 }, 0)
    | none => (cs2, 0)

/-- Make sure the mask of CPU `cpu` is initialised. -/
def init_cpumask (cs : CpuStore) (cpu : Nat) (alloc_ok : Bool) : CpuStore × Int :=
  let mask := (cs.cpu_ctx_stor[cpu]?).bind (fun c => c.llc_mask)
  match mask with
  | some _ => (cs, 0)
  | none =>
    let r := calloc_cpumask cs cpu alloc_ok
    let err := r.2
    let mask := if err = 0 then (r.1.cpu_ctx_stor[cpu]?).bind (fun c => c.llc_mask) else mask
    let err := if mask.isNone then -ENOMEM else err
    (r.1, err)

/-- Register `sibling_cpu_id` in the sibling mask of `cpu_id`. Returns the store
and the return value of the call. -/
def enable_sibling_cpu (cs : CpuStore) (input : domain_arg) (alloc_ok : Bool) :
    CpuStore × Int :=
  match try_lookup_cpu_ctx cs input.cpu_id with
  | none => (cs, -ENOENT)
  | some _ =>
    let r := init_cpumask cs input.cpu_id alloc_ok
    let err := r.2
    if err ≠ 0 then (r.1, err)
    else
      match (r.1.cpu_ctx_stor[input.cpu_id]?).bind (fun c => c.llc_mask) with
      | some mask =>
        let cctx : cpu_ctx := ⟨some (bpf_cpumask_set_cpu input.sibling_cpu_id mask)⟩
        ({ r.1 with cpu_ctx_stor := r.1.cpu_ctx_stor.set input.cpu_id cctx }, err)
      | none => (r.1, err)

/-- A sequence of registrations on one CPU: each call comes with its sibling id
and with the outcome of the allocation it may attempt. Returns the final store and
the return values of the calls. -/
def enable_sibling_cpus (cs : CpuStore) (cpu : Nat) : List (Nat × Bool) → CpuStore × List Int
  | [] => (cs, [])
  | (sib, alloc_ok) :: rest =>
    let r := enable_sibling_cpu cs ⟨cpu, sib⟩ alloc_ok
    let r2 := enable_sibling_cpus r.1 cpu rest
    (r2.1, r.2 :: r2.2)

/-! ## Bounded compare-and-swap retries (scx_lavd)

`introspec.bpf.c` and `sys_stat.bpf.c` update words that other CPUs write at the
same time. The word is passed explicitly; what the other CPUs do to it before the
`i`-th atomic access of the call is an arbitrary function `other i`. The constant
`LAVD_MAX_RETRY` is defined in a header that is not in the source tree and is a
parameter, `max_retry`. -/

/-- Error number `EINVAL`. -/
def EINVAL : Int := 22

/-- The compiler builtin `__sync_val_compare_and_swap(ptr, old, new)` on a word
that holds `mem`: the word after the operation and the value found. -/
def sync_val_compare_and_swap (mem old new : Nat) : Nat × Nat :=
  if mem = old then (new, mem) else (mem, mem)

/-- The compiler builtin `__sync_bool_compare_and_swap(ptr, old, new)` on a word
that holds `mem`: the word after the operation and whether it was swapped. -/
def sync_bool_compare_and_swap (mem old new : Nat) : Nat × Bool :=
  if mem = old then (new, true) else (mem, false)

/-- A task-context message in the ring buffer `introspec_msg`; of its fields the
task and the CPU are kept. -/
structure msg_task_ctx where
  pid : Nat
  cpu_id : Nat
deriving DecidableEq, Repr

/-- Submit a task-context message. `cpuc_ok` tells whether the CPU context is found
and `reserve_ok` whether the ring buffer has room. Returns the ring buffer and the
return value. -/
def submit_task_ctx (msgs : List msg_task_ctx) (cpuc_ok reserve_ok : Bool) (pid cpu_id : Nat) :
    List msg_task_ctx × Int :=
  if cpuc_ok = false then (msgs, -EINVAL)
  else if reserve_ok = false then (msgs, -ENOMEM)
  else (msgs ++ [⟨pid, cpu_id⟩], 0)

/-- What a call of `proc_introspec_sched_n` leaves: the word `intrspc.arg`, the
ring buffer, the number of compare-and-swap attempts made, and the value the
successful compare-and-swap found, if one succeeded. -/
structure sched_n_result where
  arg : Nat
  msgs : List msg_task_ctx
  attempts : Nat
  swapped : Option Nat
deriving DecidableEq, Repr

/-- The loop of `proc_introspec_sched_n`, with `remaining = LAVD_MAX_RETRY - i`
iterations left. -/
def proc_introspec_sched_n_loop (other : Nat → Nat → Nat) (cpuc_ok reserve_ok : Bool)
    (pid cpu_id : Nat) (msgs : List msg_task_ctx) :
    Nat → Nat → Nat → Nat → sched_n_result
  | 0, i, _, arg => ⟨arg, msgs, i, none⟩
  | remaining + 1, i, cur_nr, arg =>
    if cur_nr > 0 then
      let r := sync_val_compare_and_swap (other i arg) cur_nr (cur_nr - 1)
      let prev_nr := r.2
      if prev_nr = cur_nr then
        ⟨r.1, (submit_task_ctx msgs cpuc_ok reserve_ok pid cpu_id).1, i + 1, some cur_nr⟩
      else
        proc_introspec_sched_n_loop other cpuc_ok reserve_ok pid cpu_id msgs
          remaining (i + 1) prev_nr r.1
    else
      ⟨arg, msgs, i, none⟩

/-- Process the command "report the next `arg` schedules": decrement
`intrspc.arg` by compare-and-swap, at most `max_retry` times, and submit a message
when the decrement succeeds. -/
def proc_introspec_sched_n (max_retry : Nat) (other : Nat → Nat → Nat)
    (cpuc_ok reserve_ok : Bool) (pid cpu_id : Nat) (msgs : List msg_task_ctx) (arg : Nat) :
    sched_n_result :=
  let cur_nr := arg
  proc_introspec_sched_n_loop other cpuc_ok reserve_ok pid cpu_id msgs max_retry 0 cur_nr arg

/-- What the idle-time loop of `collect_sys_stat` leaves for one CPU: the words
`idle_start_clk` and `idle_total`, the number of compare-and-swap attempts made,
and the start clock whose idle period was added, if any. -/
structure idle_loop_result where
  idle_start_clk : Nat
  idle_total : Nat
  attempts : Nat
  added : Option Nat
deriving DecidableEq, Repr

/-- The idle-time loop of `collect_sys_stat` for one CPU, with
`remaining = LAVD_MAX_RETRY - i` iterations left. `other_read i` is what other CPUs
do to `idle_start_clk` before it is read in iteration `i`, `other_cas i` what they
do between that read and the compare-and-swap. -/
def collect_sys_stat_idle_loop (other_read other_cas : Nat → Nat → Nat) (now : Nat) :
    Nat → Nat → Nat → Nat → idle_loop_result
  | 0, i, clk, idle_total => ⟨clk, idle_total, i, none⟩
  | remaining + 1, i, clk, idle_total =>
    let old_clk := other_read i clk
    if old_clk = 0 then
      ⟨old_clk, idle_total, i, none⟩
    else
      let r := sync_bool_compare_and_swap (other_cas i old_clk) old_clk now
      if r.2 then
        ⟨r.1, add64 idle_total (sub64 now old_clk), i + 1, some old_clk⟩
      else
        collect_sys_stat_idle_loop other_read other_cas now remaining (i + 1) r.1 idle_total

/-! ## Sample inputs -/

/-- A state with the given global vtime and `n` tasks in the shared queue. -/
def state_queued (vnow n : Nat) : State :=
  ⟨vnow, 0, 0, 0, List.replicate n ⟨0, SCX_SLICE_DFL, some 0, 0⟩, [], [], [], none⟩

/-- A user task (not a kernel thread, four allowed CPUs) with the given weight,
remaining slice and vtime. -/
def user_task (weight slice vtime : Nat) : task_struct :=
  ⟨1, 0, 4, 0, ⟨weight, slice, vtime, 0⟩⟩

/-! ## Lemmas on the helpers -/

theorem CLAMP_le_hi (val lo hi : Nat) : CLAMP val lo hi ≤ hi := by
  unfold CLAMP MIN MAX
  split_ifs <;> omega

theorem CLAMP_ge_lo (val lo hi : Nat) (h : lo ≤ hi) : lo ≤ CLAMP val lo hi := by
  unfold CLAMP MIN MAX
  split_ifs <;> omega

theorem CLAMP_mono (a b lo hi : Nat) (h : a ≤ b) : CLAMP a lo hi ≤ CLAMP b lo hi := by
  unfold CLAMP MIN MAX
  split_ifs <;> omega

theorem task_refill_slice_some (cfg : Config) (s : State) (p : task_struct) (tctx : task_ctx) :
    (task_refill_slice cfg s ⟨p, some tctx⟩).p.scx.slice =
      CLAMP (scale_up_fair p tctx (cfg.slice_max / nr_tasks_waiting s))
        (SLICE_MIN cfg) cfg.slice_max := by
  simp [task_refill_slice, try_lookup_task_ctx]

theorem scale_up_fair_mono (p1 p2 : task_struct) (c1 c2 : task_ctx) (v : Nat)
    (hw : task_weight p1 c1 ≤ task_weight p2 c2)
    (hno : v * task_weight p2 c2 < 18446744073709551616) :
    scale_up_fair p1 c1 v ≤ scale_up_fair p2 c2 v := by
  unfold scale_up_fair mul64
  have h1 : v * task_weight p1 c1 ≤ v * task_weight p2 c2 := Nat.mul_le_mul_left v hw
  rw [Nat.mod_eq_of_lt hno, Nat.mod_eq_of_lt (lt_of_le_of_lt h1 hno)]
  exact Nat.div_le_div_right h1

/-! ## Time-slice allocation: bounds, monotonicity, contention -/

/-- C1. Slice bounds: for every task that has a context, whatever its weight
(lock-boosted or not) and whatever the number of tasks in the shared queue, when
`SLICE_MIN ≤ slice_max` the slice stored by `task_refill_slice` lies in
`[SLICE_MIN, slice_max]`. The product in `scale_up_fair` is taken modulo `2^64`,
so the bound also covers a wrapping product. -/
theorem task_refill_slice_bounds (cfg : Config) (s : State) (p : task_struct)
    (tctx : task_ctx) (hcfg : SLICE_MIN cfg ≤ cfg.slice_max) :
    SLICE_MIN cfg ≤ (task_refill_slice cfg s ⟨p, some tctx⟩).p.scx.slice ∧
      (task_refill_slice cfg s ⟨p, some tctx⟩).p.scx.slice ≤ cfg.slice_max := by
  rw [task_refill_slice_some]
  exact ⟨CLAMP_ge_lo _ _ _ hcfg, CLAMP_le_hi _ _ _⟩

/-- A configuration with a very large `slice_max`, for which scaled products wrap. -/
def wide_config : Config := ⟨1000, 9223372036854775808, 20000000, false, true⟩

/-- Witness of C1: a lock-boosted task whose scaled product wraps, three tasks
queued, 1000 Hz tick. -/
theorem task_refill_slice_bounds_witness :
    SLICE_MIN wide_config ≤ wide_config.slice_max ∧
      (SLICE_MIN wide_config ≤
          (task_refill_slice wide_config (state_queued 0 3)
            ⟨user_task 100 0 0, some { task_ctx_zero with lock_boost := true }⟩).p.scx.slice ∧
        (task_refill_slice wide_config (state_queued 0 3)
            ⟨user_task 100 0 0, some { task_ctx_zero with lock_boost := true }⟩).p.scx.slice ≤
          wide_config.slice_max) :=
  ⟨by decide, task_refill_slice_bounds wide_config (state_queued 0 3)
    (user_task 100 0 0) { task_ctx_zero with lock_boost := true } (by decide)⟩

/-- C6. Weight monotonicity of the time slice: with the number of queued tasks
fixed, if the weight of the second task is at least the weight of the first and
the product in `scale_up_fair` does not overflow for the larger weight, the second
task is assigned a slice at least as long as the first. -/
theorem task_refill_slice_weight_mono (cfg : Config) (s : State) (p1 p2 : task_struct)
    (c1 c2 : task_ctx) (hw : task_weight p1 c1 ≤ task_weight p2 c2)
    (hno : cfg.slice_max / nr_tasks_waiting s * task_weight p2 c2 < 18446744073709551616) :
    (task_refill_slice cfg s ⟨p1, some c1⟩).p.scx.slice ≤
      (task_refill_slice cfg s ⟨p2, some c2⟩).p.scx.slice := by
  rw [task_refill_slice_some, task_refill_slice_some]
  exact CLAMP_mono _ _ _ _ (scale_up_fair_mono p1 p2 c1 c2 _ hw hno)

/-- Witness of C6: weights 100 and 200 with three tasks queued. -/
theorem task_refill_slice_weight_mono_witness :
    (task_refill_slice (default_config 1000) (state_queued 0 3)
        ⟨user_task 100 0 0, some task_ctx_zero⟩).p.scx.slice ≤
      (task_refill_slice (default_config 1000) (state_queued 0 3)
        ⟨user_task 200 0 0, some task_ctx_zero⟩).p.scx.slice :=
  task_refill_slice_weight_mono (default_config 1000) (state_queued 0 3)
    (user_task 100 0 0) (user_task 200 0 0) task_ctx_zero task_ctx_zero
    (by decide) (by decide)

/-- C7, as stated, fails: with ten tasks queued (eleven waiting) a task of weight
200 is given `3636362` ns, twice `slice_max / 11`, not `clamp(slice_max / 11)`. -/
theorem task_refill_slice_contention_counterexample :
    nr_tasks_waiting (state_queued 0 10) = 11 ∧
      (task_refill_slice (default_config 1000) (state_queued 0 10)
          ⟨user_task 200 0 0, some task_ctx_zero⟩).p.scx.slice = 3636362 ∧
      CLAMP ((default_config 1000).slice_max / 11) (SLICE_MIN (default_config 1000))
          (default_config 1000).slice_max = 1818181 ∧
      (task_refill_slice (default_config 1000) (state_queued 0 10)
          ⟨user_task 200 0 0, some task_ctx_zero⟩).p.scx.slice ≠
        CLAMP ((default_config 1000).slice_max / 11) (SLICE_MIN (default_config 1000))
          (default_config 1000).slice_max := by
  decide

/-- C7, amended. With exactly ten tasks in the shared queue, eleven tasks are
waiting and the slice of a task is `clamp(scale_up_fair(slice_max / 11), SLICE_MIN,
slice_max)`: the share `slice_max / 11` is scaled by the task's weight. For the
default weight 100 (and `slice_max / 11 * 100` below `2^64`) this is
`clamp(slice_max / 11, SLICE_MIN, slice_max)`. -/
theorem task_refill_slice_contention (cfg : Config) (s : State) (p : task_struct)
    (tctx : task_ctx) (hq : scx_bpf_dsq_nr_queued s = 10) :
    nr_tasks_waiting s = 11 ∧
      (task_refill_slice cfg s ⟨p, some tctx⟩).p.scx.slice =
        CLAMP (scale_up_fair p tctx (cfg.slice_max / 11)) (SLICE_MIN cfg) cfg.slice_max ∧
      (task_weight p tctx = 100 → cfg.slice_max / 11 * 100 < 18446744073709551616 →
        (task_refill_slice cfg s ⟨p, some tctx⟩).p.scx.slice =
          CLAMP (cfg.slice_max / 11) (SLICE_MIN cfg) cfg.slice_max) := by
  have hn : nr_tasks_waiting s = 11 := by
    unfold nr_tasks_waiting add64
    rw [hq]
  refine ⟨hn, ?_, ?_⟩
  · rw [task_refill_slice_some, hn]
  · intro hw hno
    rw [task_refill_slice_some, hn]
    unfold scale_up_fair mul64
    rw [hw, Nat.mod_eq_of_lt hno, Nat.mul_div_cancel _ (by decide : 0 < 100)]

/-- Witness of C7 (amended): ten tasks queued, a task of weight 100. -/
theorem task_refill_slice_contention_witness :
    scx_bpf_dsq_nr_queued (state_queued 0 10) = 10 ∧
      task_weight (user_task 100 0 0) task_ctx_zero = 100 ∧
      (task_refill_slice (default_config 1000) (state_queued 0 10)
          ⟨user_task 100 0 0, some task_ctx_zero⟩).p.scx.slice =
        CLAMP ((default_config 1000).slice_max / 11) (SLICE_MIN (default_config 1000))
          (default_config 1000).slice_max :=
  ⟨by decide, by decide,
    (task_refill_slice_contention (default_config 1000) (state_queued 0 10)
      (user_task 100 0 0) task_ctx_zero (by decide)).2.2 (by decide) (by decide)⟩

/-! ## Virtual time: the lag bound -/

theorem task_lag_after_task_vtime (cfg : Config) (vtime_now : Nat) (p : task_struct)
    (tctx : task_ctx) :
    task_lag cfg (task_vtime cfg vtime_now p tctx).1 (task_vtime cfg vtime_now p tctx).2.1 =
      task_lag cfg p tctx := by
  unfold task_vtime
  dsimp only
  split_ifs <;> simp [task_lag, scale_up_fair, task_weight]

theorem task_vtime_dsq_vtime (cfg : Config) (vtime_now : Nat) (p : task_struct)
    (tctx : task_ctx) :
    (task_vtime cfg vtime_now p tctx).1.scx.dsq_vtime =
      if time_before p.scx.dsq_vtime (sub64 vtime_now (task_lag cfg p tctx)) = true then
        sub64 vtime_now (task_lag cfg p tctx)
      else p.scx.dsq_vtime := by
  unfold task_vtime
  dsimp only
  split_ifs <;> rfl

theorem task_lag_lt (cfg : Config) (p : task_struct) (tctx : task_ctx) :
    task_lag cfg p tctx < 18446744073709551616 := by
  unfold task_lag scale_up_fair mul64
  have h := Nat.mod_lt (cfg.slice_lag * task_weight p tctx)
    (by decide : 0 < 18446744073709551616)
  omega

/-- C2. Lag bound: when `task_vtime` returns, the task's vtime is not before
`vtime_now - task_lag(p)` in the wrap-aware order of `time_before`; and when
`vtime_now` is below `2^63`, in the integers, `dsq_vtime + task_lag(p) ≥ vtime_now`. -/
theorem task_vtime_lag_bound (cfg : Config) (vtime_now : Nat) (p : task_struct)
    (tctx : task_ctx) (hv : vtime_now < 9223372036854775808) :
    time_before (task_vtime cfg vtime_now p tctx).1.scx.dsq_vtime
        (sub64 vtime_now
          (task_lag cfg (task_vtime cfg vtime_now p tctx).1
            (task_vtime cfg vtime_now p tctx).2.1)) = false ∧
      vtime_now ≤ (task_vtime cfg vtime_now p tctx).1.scx.dsq_vtime +
        task_lag cfg (task_vtime cfg vtime_now p tctx).1
          (task_vtime cfg vtime_now p tctx).2.1 := by
  rw [task_lag_after_task_vtime, task_vtime_dsq_vtime]
  have hl := task_lag_lt cfg p tctx
  generalize task_lag cfg p tctx = lag at hl ⊢
  by_cases hb : time_before p.scx.dsq_vtime (sub64 vtime_now lag) = true
  · rw [if_pos hb]
    refine ⟨?_, ?_⟩
    · simp only [time_before, sub64, toS64, decide_eq_false_iff_not]
      split_ifs <;> omega
    · simp only [sub64]
      omega
  · rw [if_neg hb]
    refine ⟨by simpa using hb, ?_⟩
    simp only [time_before, sub64, toS64, decide_eq_true_eq] at hb
    split_ifs at hb <;> omega

/-- Witness of C2: a task that slept long enough to be re-based. -/
theorem task_vtime_lag_bound_witness :
    (task_vtime (default_config 1000) 50000000 (user_task 100 0 7) task_ctx_zero).1.scx.dsq_vtime
        = 30000000 ∧
      (50000000 : Nat) ≤
        (task_vtime (default_config 1000) 50000000 (user_task 100 0 7)
            task_ctx_zero).1.scx.dsq_vtime +
          task_lag (default_config 1000)
            (task_vtime (default_config 1000) 50000000 (user_task 100 0 7) task_ctx_zero).1
            (task_vtime (default_config 1000) 50000000 (user_task 100 0 7) task_ctx_zero).2.1 :=
  ⟨by decide, (task_vtime_lag_bound (default_config 1000) 50000000 (user_task 100 0 7)
    task_ctx_zero (by decide)).2⟩

/-! ## Stopping: yield counting and the yield-rate average -/

/-- The window test of `flash_stopping`: `(s64)(now - nvcsw_ts) > NSEC_PER_SEC`. -/
def window_elapsed (now : Nat) (tctx : task_ctx) : Prop :=
  toS64 (sub64 now tctx.nvcsw_ts) > (NSEC_PER_SEC : Int)

instance (now : Nat) (tctx : task_ctx) : Decidable (window_elapsed now tctx) := by
  unfold window_elapsed
  infer_instance

theorem flash_stopping_window_fields (now : Nat) (p : task_struct) (tctx : task_ctx)
    (runnable : Bool) :
    ∃ c, (flash_stopping now ⟨p, some tctx⟩ runnable).stor = some c ∧
      c.nvcsw = (if window_elapsed now tctx then 0 else stopping_nvcsw p tctx) ∧
      c.nvcsw_ts = (if window_elapsed now tctx then now else tctx.nvcsw_ts) ∧
      c.avg_nvcsw =
        (if window_elapsed now tctx then
          calc_avg_clamp tctx.avg_nvcsw
            (mul64 (stopping_nvcsw p tctx) NSEC_PER_SEC / sub64 now tctx.nvcsw_ts)
            0 MAX_AVG_NVCSW
        else tctx.avg_nvcsw) := by
  unfold flash_stopping try_lookup_task_ctx window_elapsed
  dsimp only
  split_ifs
  · exact ⟨_, rfl, rfl, rfl, rfl⟩
  · exact ⟨_, rfl, rfl, rfl, rfl⟩

/-- C3. EWMA clamp invariant: a fresh (zeroed) context has `avg_nvcsw ≤ 128`;
`flash_stopping` returns a context whose `avg_nvcsw` is at most 128 whenever it
refreshes the window (whatever the count, the elapsed time and the previous
average) and otherwise keeps the previous value, so the bound is preserved; the
`vfs_fsync_range` probe sets `avg_nvcsw` to 0. -/
theorem avg_nvcsw_clamp_invariant (now : Nat) (p : task_struct) (tctx : task_ctx)
    (runnable : Bool) :
    task_ctx_zero.avg_nvcsw ≤ MAX_AVG_NVCSW ∧
      MAX_AVG_NVCSW = 128 ∧
      (∃ c, (flash_stopping now ⟨p, some tctx⟩ runnable).stor = some c ∧
        (window_elapsed now tctx → c.avg_nvcsw ≤ MAX_AVG_NVCSW) ∧
        (¬ window_elapsed now tctx → c.avg_nvcsw = tctx.avg_nvcsw) ∧
        (tctx.avg_nvcsw ≤ MAX_AVG_NVCSW → c.avg_nvcsw ≤ MAX_AVG_NVCSW)) ∧
      (kprobe_vfs_fsync_range ⟨p, some tctx⟩).1.stor = some { tctx with avg_nvcsw := 0 } := by
  refine ⟨by decide, rfl, ?_, rfl⟩
  obtain ⟨c, hc, -, -, havg⟩ := flash_stopping_window_fields now p tctx runnable
  refine ⟨c, hc, ?_, ?_, ?_⟩
  · intro hw
    rw [havg, if_pos hw]
    exact CLAMP_le_hi _ _ _
  · intro hw
    rw [havg, if_neg hw]
  · intro hle
    rw [havg]
    split_ifs
    · exact CLAMP_le_hi _ _ _
    · exact hle

/-- Witness of C3: a window refresh with a previous average far above the bound
and a large yield count. -/
theorem avg_nvcsw_clamp_invariant_witness :
    window_elapsed 3000000000 { task_ctx_zero with nvcsw := 900, avg_nvcsw := 5000 } ∧
      ∃ c, (flash_stopping 3000000000
          ⟨user_task 100 5 0, some { task_ctx_zero with nvcsw := 900, avg_nvcsw := 5000 }⟩
          true).stor = some c ∧ c.avg_nvcsw ≤ MAX_AVG_NVCSW :=
  ⟨by decide,
    match (avg_nvcsw_clamp_invariant 3000000000 (user_task 100 5 0)
      { task_ctx_zero with nvcsw := 900, avg_nvcsw := 5000 } true).2.2.1 with
    | ⟨c, hc, hw, _, _⟩ => ⟨c, hc, hw (by decide)⟩⟩

/-- C4, as stated, fails: a task stops with 5 ns of slice left and `nvcsw = 5`,
two seconds after the window was last reset; after the call `nvcsw` is 0, not 6. -/
theorem flash_stopping_yield_count_counterexample :
    (user_task 100 5 0).scx.slice > 0 ∧
      (flash_stopping 2000000000
          ⟨user_task 100 5 0, some { task_ctx_zero with nvcsw := 5 }⟩ true).stor.map
        (fun c => c.nvcsw) = some 0 ∧
      (flash_stopping 2000000000
          ⟨user_task 100 5 0, some { task_ctx_zero with nvcsw := 5 }⟩ true).stor.map
        (fun c => c.nvcsw) ≠ some (5 + 1) := by
  decide

/-- C4, amended. `flash_stopping` on a task with a context returns a context.
When the call does not refresh the yield-rate window (`(s64)(now - nvcsw_ts)` is
at most `NSEC_PER_SEC`): with a remaining slice `> 0` the counter `nvcsw` is its
previous value plus one (as a `u64`), with a remaining slice of 0 it is unchanged.
When the call refreshes the window, `nvcsw` is 0 after the call and the count
folded into `avg_nvcsw` is the previous value plus one when the remaining slice is
`> 0`, the previous value when it is 0. -/
theorem flash_stopping_yield_count (now : Nat) (p : task_struct) (tctx : task_ctx)
    (runnable : Bool) :
    ∃ c, (flash_stopping now ⟨p, some tctx⟩ runnable).stor = some c ∧
      (¬ window_elapsed now tctx → p.scx.slice > 0 → c.nvcsw = add64 tctx.nvcsw 1) ∧
      (¬ window_elapsed now tctx → p.scx.slice = 0 → c.nvcsw = tctx.nvcsw) ∧
      (window_elapsed now tctx → p.scx.slice > 0 →
        c.nvcsw = 0 ∧
        c.avg_nvcsw = calc_avg_clamp tctx.avg_nvcsw
          (mul64 (add64 tctx.nvcsw 1) NSEC_PER_SEC / sub64 now tctx.nvcsw_ts)
          0 MAX_AVG_NVCSW) ∧
      (window_elapsed now tctx → p.scx.slice = 0 →
        c.nvcsw = 0 ∧
        c.avg_nvcsw = calc_avg_clamp tctx.avg_nvcsw
          (mul64 tctx.nvcsw NSEC_PER_SEC / sub64 now tctx.nvcsw_ts)
          0 MAX_AVG_NVCSW) := by
  obtain ⟨c, hc, hn, -, havg⟩ := flash_stopping_window_fields now p tctx runnable
  refine ⟨c, hc, ?_, ?_, ?_, ?_⟩
  · intro hw hs
    rw [hn, if_neg hw, stopping_nvcsw, if_pos hs]
  · intro hw hs
    rw [hn, if_neg hw, stopping_nvcsw, if_neg (by omega)]
  · intro hw hs
    rw [hn, havg, if_pos hw, if_pos hw, stopping_nvcsw, if_pos hs]
    exact ⟨rfl, rfl⟩
  · intro hw hs
    rw [hn, havg, if_pos hw, if_pos hw, stopping_nvcsw, if_neg (by omega)]
    exact ⟨rfl, rfl⟩

/-- Witness of C4 (amended): a voluntary stop half a second into the window. -/
theorem flash_stopping_yield_count_witness :
    ¬ window_elapsed 500000000 { task_ctx_zero with nvcsw := 5 } ∧
      (user_task 100 5 0).scx.slice > 0 ∧
      ∃ c, (flash_stopping 500000000
          ⟨user_task 100 5 0, some { task_ctx_zero with nvcsw := 5 }⟩ true).stor = some c ∧
        c.nvcsw = add64 5 1 :=
  ⟨by decide, by decide,
    match flash_stopping_yield_count 500000000 (user_task 100 5 0)
      { task_ctx_zero with nvcsw := 5 } true with
    | ⟨c, hc, h1, _, _, _⟩ => ⟨c, hc, h1 (by decide) (by decide)⟩⟩

/-! ## Deadline: monotonicity in the weight -/

theorem log2_halving_mono (fuel : Nat) : ∀ a b : Nat, a ≤ b →
    log2_halving fuel a ≤ log2_halving fuel b := by
  induction fuel with
  | zero => intro a b _; simp [log2_halving]
  | succ n ih =>
    intro a b hab
    simp only [log2_halving]
    by_cases ha : 2 ≤ a
    · have hb : 2 ≤ b := le_trans ha hab
      rw [if_pos ha, if_pos hb]
      exact Nat.succ_le_succ (ih _ _ (Nat.div_le_div_right hab))
    · rw [if_neg ha]
      exact Nat.zero_le _

theorem log2_u64_mono (a b : Nat) (h : a ≤ b) : log2_u64 a ≤ log2_u64 b :=
  log2_halving_mono 64 a b h

theorem log2_halving_le_fuel (fuel v : Nat) : log2_halving fuel v ≤ fuel := by
  induction fuel generalizing v with
  | zero => simp [log2_halving]
  | succ n ih =>
    simp only [log2_halving]
    split_ifs
    · exact Nat.succ_le_succ (ih _)
    · exact Nat.zero_le _

theorem log2_u64_le (v : Nat) : log2_u64 v ≤ 64 := log2_halving_le_fuel 64 v

theorem latency_weight_mono : ∀ i, i < 40 → ∀ j, j < 40 → i ≤ j →
    (sched_prio_to_latency_weight i).1 ≤ (sched_prio_to_latency_weight j).1 := by
  decide

theorem latency_weight_pos : ∀ i, i < 40 → 0 < (sched_prio_to_latency_weight i).1 := by
  decide

theorem MIN_le_right (x y : Nat) : MIN x y ≤ y := by
  unfold MIN
  split_ifs <;> omega

theorem MIN_mono (a b y : Nat) (h : a ≤ b) : MIN a y ≤ MIN b y := by
  unfold MIN
  split_ifs <;> omega

theorem task_lat_prio_lt (p : task_struct) (tctx : task_ctx) : task_lat_prio p tctx < 40 := by
  unfold task_lat_prio
  have h := MIN_le_right
    (if scale_up_fair p tctx tctx.avg_nvcsw >
        log2_u64 (add64 (scale_inverse_fair p tctx tctx.avg_runtime) 1) then
      sub64 (scale_up_fair p tctx tctx.avg_nvcsw)
        (log2_u64 (add64 (scale_inverse_fair p tctx tctx.avg_runtime) 1))
    else 0) (max_sched_prio - 1)
  have hm : max_sched_prio - 1 = 39 := by decide
  rw [hm] at h
  dsimp only
  rw [hm]
  omega

theorem scale_inverse_fair_succ_anti (p1 p2 : task_struct) (c1 c2 : task_ctx) (v : Nat)
    (h1 : 1 ≤ task_weight p1 c1) (hw : task_weight p1 c1 ≤ task_weight p2 c2) :
    add64 (scale_inverse_fair p2 c2 v) 1 ≤ add64 (scale_inverse_fair p1 c1 v) 1 := by
  unfold scale_inverse_fair mul64
  have hle : v * 100 % 18446744073709551616 / task_weight p2 c2 ≤
      v * 100 % 18446744073709551616 / task_weight p1 c1 :=
    Nat.div_le_div_left hw (by omega)
  have hself : v * 100 % 18446744073709551616 / task_weight p1 c1 ≤
      v * 100 % 18446744073709551616 := Nat.div_le_self _ _
  have hodd : v * 100 % 18446744073709551616 < 18446744073709551615 := by omega
  generalize v * 100 % 18446744073709551616 / task_weight p2 c2 = x2 at hle ⊢
  generalize v * 100 % 18446744073709551616 / task_weight p1 c1 = x1 at hle hself ⊢
  unfold add64
  omega

theorem task_lat_prio_weight_mono (p1 p2 : task_struct) (c1 c2 : task_ctx)
    (hn : c1.avg_nvcsw = c2.avg_nvcsw) (hr : c1.avg_runtime = c2.avg_runtime)
    (h1 : 1 ≤ task_weight p1 c1) (hw : task_weight p1 c1 ≤ task_weight p2 c2)
    (hno : c2.avg_nvcsw * task_weight p2 c2 < 18446744073709551616) :
    task_lat_prio p1 c1 ≤ task_lat_prio p2 c2 := by
  unfold task_lat_prio
  dsimp only
  apply MIN_mono
  have hA : scale_up_fair p1 c1 c1.avg_nvcsw ≤ scale_up_fair p2 c2 c2.avg_nvcsw := by
    rw [hn]
    exact scale_up_fair_mono p1 p2 c1 c2 _ hw hno
  have hB : log2_u64 (add64 (scale_inverse_fair p2 c2 c2.avg_runtime) 1) ≤
      log2_u64 (add64 (scale_inverse_fair p1 c1 c1.avg_runtime) 1) := by
    rw [hr]
    exact log2_u64_mono _ _ (scale_inverse_fair_succ_anti p1 p2 c1 c2 _ h1 hw)
  have hA2 : scale_up_fair p2 c2 c2.avg_nvcsw < 18446744073709551616 := by
    unfold scale_up_fair mul64
    have := Nat.mod_lt (c2.avg_nvcsw * task_weight p2 c2)
      (by decide : 0 < 18446744073709551616)
    omega
  generalize scale_up_fair p1 c1 c1.avg_nvcsw = a1 at hA ⊢
  generalize scale_up_fair p2 c2 c2.avg_nvcsw = a2 at hA hA2 ⊢
  generalize log2_u64 (add64 (scale_inverse_fair p1 c1 c1.avg_runtime) 1) = b1 at hB ⊢
  generalize log2_u64 (add64 (scale_inverse_fair p2 c2 c2.avg_runtime) 1) = b2 at hB ⊢
  unfold sub64
  split_ifs <;> omega

/-- C5. Weight monotonicity of the deadline offset: two tasks with the same
`avg_nvcsw` and the same `avg_runtime`, the first of weight at least 1 and the
second of a weight at least as large, the product `avg_nvcsw * weight` of the
second not overflowing: the deadline offset of the second (heavier) task is at
most the offset of the first. -/
theorem task_deadline_weight_mono (p1 p2 : task_struct) (c1 c2 : task_ctx)
    (hn : c1.avg_nvcsw = c2.avg_nvcsw) (hr : c1.avg_runtime = c2.avg_runtime)
    (h1 : 1 ≤ task_weight p1 c1) (hw : task_weight p1 c1 ≤ task_weight p2 c2)
    (hno : c2.avg_nvcsw * task_weight p2 c2 < 18446744073709551616) :
    task_deadline p2 c2 ≤ task_deadline p1 c1 := by
  unfold task_deadline
  dsimp only
  rw [hr]
  have hlat := task_lat_prio_weight_mono p1 p2 c1 c2 hn hr h1 hw hno
  have hlt1 := task_lat_prio_lt p1 c1
  have hlt2 := task_lat_prio_lt p2 c2
  exact Nat.div_le_div_left (latency_weight_mono _ hlt1 _ hlt2 hlat)
    (latency_weight_pos _ hlt1)

/-- Witness of C5: weights 100 and 300 with 30 yields per second and 1 ms runs. -/
theorem task_deadline_weight_mono_witness :
    task_deadline (user_task 300 0 0)
        { task_ctx_zero with avg_nvcsw := 30, avg_runtime := 1000000 } ≤
      task_deadline (user_task 100 0 0)
        { task_ctx_zero with avg_nvcsw := 30, avg_runtime := 1000000 } :=
  task_deadline_weight_mono (user_task 100 0 0) (user_task 300 0 0)
    { task_ctx_zero with avg_nvcsw := 30, avg_runtime := 1000000 }
    { task_ctx_zero with avg_nvcsw := 30, avg_runtime := 1000000 }
    rfl rfl (by decide) (by decide) (by decide)

/-! ## Enabling a task: the seeded deadline -/

theorem task_lat_prio_of_no_yield (p : task_struct) (tctx : task_ctx)
    (h : tctx.avg_nvcsw = 0) : task_lat_prio p tctx = 0 := by
  unfold task_lat_prio scale_up_fair mul64
  dsimp only
  rw [h]
  have hm : max_sched_prio - 1 = 39 := by decide
  simp [MIN, hm]

theorem task_deadline_of_no_yield (p : task_struct) (tctx : task_ctx)
    (h : tctx.avg_nvcsw = 0) : task_deadline p tctx = mul64 tctx.avg_runtime 1024 / 15 := by
  unfold task_deadline
  dsimp only
  rw [task_lat_prio_of_no_yield p tctx h]
  rfl

theorem SLICE_MIN_le (cfg : Config) : SLICE_MIN cfg ≤ 1000000000 := by
  unfold SLICE_MIN NSEC_PER_SEC
  exact Nat.div_le_self _ _

/-- C8, as stated, fails: with a 1000 Hz tick (`SLICE_MIN = 1000000`), a fresh
context, weight 100 and `vtime_now = 1000`, `flash_enable` stores the deadline
`68267666 = 1000 + 1000000 * 1024 / 15`, not `1000 + SLICE_MIN = 1001000`. -/
theorem flash_enable_seeding_counterexample :
    SLICE_MIN (default_config 1000) = 1000000 ∧
      (flash_enable (default_config 1000) 5 (state_queued 1000 0)
          ⟨user_task 100 0 0, some task_ctx_zero⟩).2.stor.map (fun c => c.deadline)
        = some 68267666 ∧
      (flash_enable (default_config 1000) 5 (state_queued 1000 0)
          ⟨user_task 100 0 0, some task_ctx_zero⟩).2.stor.map (fun c => c.deadline)
        ≠ some (1000 + SLICE_MIN (default_config 1000)) := by
  decide

/-- C8, amended. For a task with a fresh (zeroed) context and weight 100,
`flash_enable` run with `vtime_now = 1000` leaves `dsq_vtime = 1000`,
`avg_runtime = SLICE_MIN` and `deadline = 1000 + offset`, where the offset is
`avg_runtime * 1024 / latency_weight` with the table value of latency priority 0
(the last entry of the table, weight 15): `offset = SLICE_MIN * 1024 / 15`. -/
theorem flash_enable_seeding (cfg : Config) (now : Nat) (s : State) (p : task_struct)
    (hv : s.vtime_now = 1000) (hw : p.scx.weight = 100) :
    ∃ c, (flash_enable cfg now s ⟨p, some task_ctx_zero⟩).2.stor = some c ∧
      (flash_enable cfg now s ⟨p, some task_ctx_zero⟩).2.p.scx.dsq_vtime = 1000 ∧
      c.avg_runtime = SLICE_MIN cfg ∧
      task_lat_prio (flash_enable cfg now s ⟨p, some task_ctx_zero⟩).2.p c = 0 ∧
      (sched_prio_to_latency_weight 0).1 = 15 ∧
      task_deadline (flash_enable cfg now s ⟨p, some task_ctx_zero⟩).2.p c =
        SLICE_MIN cfg * 1024 / 15 ∧
      c.deadline = 1000 + SLICE_MIN cfg * 1024 / 15 := by
  have hle := SLICE_MIN_le cfg
  have hmul : mul64 (SLICE_MIN cfg) 1024 = SLICE_MIN cfg * 1024 := by
    unfold mul64
    exact Nat.mod_eq_of_lt (by omega)
  have hoff : SLICE_MIN cfg * 1024 / 15 ≤ 1000000000 * 1024 / 15 :=
    Nat.div_le_div_right (by omega)
  refine ⟨_, rfl, ?_, rfl, ?_, by decide, ?_, ?_⟩
  · simp [flash_enable, try_lookup_task_ctx, hv]
  · exact task_lat_prio_of_no_yield _ _ rfl
  · rw [task_deadline_of_no_yield _ _ rfl]
    simp only [hmul]
  · show add64 s.vtime_now (task_deadline _ _) = _
    rw [task_deadline_of_no_yield _ _ rfl, hv]
    simp only [hmul]
    unfold add64
    exact Nat.mod_eq_of_lt (by omega)

/-- Witness of C8 (amended): 1000 Hz tick. -/
theorem flash_enable_seeding_witness :
    ∃ c, (flash_enable (default_config 1000) 5 (state_queued 1000 0)
        ⟨user_task 100 0 0, some task_ctx_zero⟩).2.stor = some c ∧
      c.avg_runtime = 1000000 ∧ c.deadline = 1000 + 68266666 :=
  match flash_enable_seeding (default_config 1000) 5 (state_queued 1000 0)
    (user_task 100 0 0) rfl rfl with
  | ⟨c, hc, _, hr, _, _, _, hd⟩ => ⟨c, hc, hr, hd⟩

/-! ## Voluntary yields and the deadline -/

theorem task_deadline_congr (p q : task_struct) (c d : task_ctx)
    (hw : task_weight p c = task_weight q d) (hn : c.avg_nvcsw = d.avg_nvcsw)
    (hr : c.avg_runtime = d.avg_runtime) : task_deadline p c = task_deadline q d := by
  unfold task_deadline task_lat_prio scale_up_fair scale_inverse_fair
  rw [hw, hn, hr]

/-- C9. Voluntary yield boosts latency priority: at weight 100 and with
`avg_runtime = 1000000` ns, of a task with `avg_nvcsw = 50` and a task with
`avg_nvcsw = 0` that share their vtime, the first has the strictly smaller
deadline offset; its deadline `dsq_vtime + task_deadline` is strictly earlier in
the wrap-aware order, and strictly smaller as a number when the sum does not wrap. -/
theorem yield_boosts_latency_priority (p : task_struct) (c50 c0 : task_ctx)
    (hw : p.scx.weight = 100) (hb50 : c50.lock_boost = false) (hb0 : c0.lock_boost = false)
    (hr50 : c50.avg_runtime = 1000000) (hr0 : c0.avg_runtime = 1000000)
    (hn50 : c50.avg_nvcsw = 50) (hn0 : c0.avg_nvcsw = 0) :
    task_deadline p c50 < task_deadline p c0 ∧
      time_before (add64 p.scx.dsq_vtime (task_deadline p c50))
        (add64 p.scx.dsq_vtime (task_deadline p c0)) = true ∧
      (p.scx.dsq_vtime + task_deadline p c0 < 18446744073709551616 →
        add64 p.scx.dsq_vtime (task_deadline p c50) <
          add64 p.scx.dsq_vtime (task_deadline p c0)) := by
  have h50 : task_deadline p c50 = 68499 := by
    rw [task_deadline_congr p (user_task 100 0 0) c50
      { task_ctx_zero with avg_nvcsw := 50, avg_runtime := 1000000 }
      (by simp [task_weight, hb50, hw, user_task, task_ctx_zero]) hn50 hr50]
    decide
  have h0 : task_deadline p c0 = 68266666 := by
    rw [task_deadline_congr p (user_task 100 0 0) c0
      { task_ctx_zero with avg_nvcsw := 0, avg_runtime := 1000000 }
      (by simp [task_weight, hb0, hw, user_task, task_ctx_zero]) hn0 hr0]
    decide
  rw [h50, h0]
  refine ⟨by decide, ?_, ?_⟩
  · simp only [time_before, sub64, add64, toS64, decide_eq_true_eq]
    split_ifs <;> omega
  · intro hlt
    unfold add64
    omega

/-- Witness of C9: both tasks at vtime 1000. -/
theorem yield_boosts_latency_priority_witness :
    add64 (user_task 100 0 1000).scx.dsq_vtime
        (task_deadline (user_task 100 0 1000)
          { task_ctx_zero with avg_nvcsw := 50, avg_runtime := 1000000 }) <
      add64 (user_task 100 0 1000).scx.dsq_vtime
        (task_deadline (user_task 100 0 1000)
          { task_ctx_zero with avg_nvcsw := 0, avg_runtime := 1000000 }) :=
  (yield_boosts_latency_priority (user_task 100 0 1000)
    { task_ctx_zero with avg_nvcsw := 50, avg_runtime := 1000000 }
    { task_ctx_zero with avg_nvcsw := 0, avg_runtime := 1000000 }
    rfl rfl rfl rfl rfl rfl rfl).2.2 (by decide)

/-! ## Enqueue: the kernel-thread fast path -/

/-- C10. Kernel-thread fast path: for a kernel thread (`PF_KTHREAD` set) with
`nr_cpus_allowed = 1`, whatever `local_kthreads` and the enqueue flags,
`flash_enqueue` appends to the local queue one entry for the task with the default
slice and the flags `enq_flags | SCX_ENQ_PREEMPT`, increments
`nr_kthread_dispatches` by one (as a `u64`), and leaves the shared queue,
`nr_shared_dispatches`, the other counter, `vtime_now`, the idle CPUs and the task
with its context unchanged. -/
theorem flash_enqueue_kthread_fast_path (cfg : Config) (s : State) (t : Task)
    (enq_flags : Nat) (hk : t.p.flags &&& PF_KTHREAD ≠ 0) (h1 : t.p.nr_cpus_allowed = 1) :
    (flash_enqueue cfg s t enq_flags).1.local_dsq =
        s.local_dsq ++ [⟨t.p.pid, SCX_SLICE_DFL, none, enq_flags ||| SCX_ENQ_PREEMPT⟩] ∧
      (flash_enqueue cfg s t enq_flags).1.nr_kthread_dispatches =
        add64 s.nr_kthread_dispatches 1 ∧
      (s.nr_kthread_dispatches + 1 < 18446744073709551616 →
        (flash_enqueue cfg s t enq_flags).1.nr_kthread_dispatches =
          s.nr_kthread_dispatches + 1) ∧
      (flash_enqueue cfg s t enq_flags).1.shared_dsq = s.shared_dsq ∧
      (flash_enqueue cfg s t enq_flags).1.nr_shared_dispatches = s.nr_shared_dispatches ∧
      (flash_enqueue cfg s t enq_flags).1.nr_direct_dispatches = s.nr_direct_dispatches ∧
      (flash_enqueue cfg s t enq_flags).1.vtime_now = s.vtime_now ∧
      (flash_enqueue cfg s t enq_flags).1.idle_cpus = s.idle_cpus ∧
      (flash_enqueue cfg s t enq_flags).1.kicked = s.kicked ∧
      (flash_enqueue cfg s t enq_flags).1.error = s.error ∧
      (flash_enqueue cfg s t enq_flags).2 = t := by
  have hcond : (is_kthread t.p && (cfg.local_kthreads || decide (t.p.nr_cpus_allowed = 1)))
      = true := by
    simp [is_kthread, hk, h1]
  unfold flash_enqueue
  rw [if_pos hcond]
  refine ⟨rfl, rfl, ?_, rfl, rfl, rfl, rfl, rfl, rfl, rfl, rfl⟩
  intro hlt
  show add64 s.nr_kthread_dispatches 1 = _
  unfold add64
  exact Nat.mod_eq_of_lt hlt

/-- A kernel thread pinned to one CPU, with a context. -/
def pinned_kthread : Task :=
  ⟨⟨7, PF_KTHREAD, 1, 2, ⟨100, 0, 500, 0⟩⟩, some task_ctx_zero⟩

/-- Witness of C10: a pinned kernel thread enqueued with flags 1 while two tasks
are in the shared queue. -/
theorem flash_enqueue_kthread_fast_path_witness :
    (flash_enqueue (default_config 1000) (state_queued 0 2) pinned_kthread 1).1.local_dsq =
        [⟨7, SCX_SLICE_DFL, none, 4294967297⟩] ∧
      (flash_enqueue (default_config 1000) (state_queued 0 2) pinned_kthread 1).1.nr_kthread_dispatches
        = 1 ∧
      (flash_enqueue (default_config 1000) (state_queued 0 2) pinned_kthread 1).1.shared_dsq =
        (state_queued 0 2).shared_dsq :=
  match flash_enqueue_kthread_fast_path (default_config 1000) (state_queued 0 2)
    pinned_kthread 1 (by decide) rfl with
  | ⟨hl, hn, _, hs, _⟩ => ⟨hl, hn, hs⟩

/-! ## Deadline: the table lookup is safe -/

theorem latency_weight_ge : ∀ i, i < 40 → 15 ≤ (sched_prio_to_latency_weight i).1 := by
  decide

theorem latency_weight_no_error : ∀ i, i < 40 → (sched_prio_to_latency_weight i).2 = none := by
  decide

/-- C11. The latency-priority clamp makes the table lookup safe: for every task,
whatever its weight, `avg_nvcsw` and `avg_runtime`, the latency priority handed to
`sched_prio_to_latency_weight` is at most 39 (it is a natural number, so at least
0), the lookup reports no error, the table index `max_prio - prio - 1` is below 40
and holds the value returned, and that latency weight is at least 15, so the
divisor in `task_deadline` is not zero. -/
theorem task_deadline_lookup_safe (p : task_struct) (tctx : task_ctx) :
    task_lat_prio p tctx ≤ 39 ∧
      (sched_prio_to_latency_weight (task_lat_prio p tctx)).2 = none ∧
      max_sched_prio - task_lat_prio p tctx - 1 < sched_prio_to_weight.length ∧
      sched_prio_to_weight.length = 40 ∧
      sched_prio_to_weight[max_sched_prio - task_lat_prio p tctx - 1]? =
        some (sched_prio_to_latency_weight (task_lat_prio p tctx)).1 ∧
      15 ≤ (sched_prio_to_latency_weight (task_lat_prio p tctx)).1 ∧
      (sched_prio_to_latency_weight (task_lat_prio p tctx)).1 ≠ 0 := by
  have hlt := task_lat_prio_lt p tctx
  have hge := latency_weight_ge _ hlt
  have hlen : sched_prio_to_weight.length = 40 := by decide
  have hmax : max_sched_prio = 40 := by decide
  have hidx : max_sched_prio - task_lat_prio p tctx - 1 < sched_prio_to_weight.length := by
    omega
  refine ⟨by omega, latency_weight_no_error _ hlt, hidx, hlen, ?_, hge, by omega⟩
  have hnot : ¬ task_lat_prio p tctx ≥ max_sched_prio := by omega
  simp only [sched_prio_to_latency_weight, if_neg hnot]
  rw [List.getD_eq_getElem?_getD, List.getElem?_eq_getElem hidx]
  rfl

/-! ## Stopping: run-stop accounting and the deadline -/

theorem flash_stopping_accounting_fields (now : Nat) (p : task_struct) (tctx : task_ctx)
    (runnable : Bool) :
    ∃ c, (flash_stopping now ⟨p, some tctx⟩ runnable).stor = some c ∧
      c.sum_runtime = add64 tctx.sum_runtime (sub64 now tctx.last_run_at) ∧
      c.avg_runtime = calc_avg tctx.avg_runtime
        (add64 tctx.sum_runtime (sub64 now tctx.last_run_at)) ∧
      (flash_stopping now ⟨p, some tctx⟩ runnable).p =
        { p with scx := { p.scx with
            dsq_vtime := add64 p.scx.dsq_vtime
              (mul64 (sub64 now tctx.last_run_at) 100 / task_weight p tctx) } } ∧
      c.deadline = add64 (flash_stopping now ⟨p, some tctx⟩ runnable).p.scx.dsq_vtime
        (task_deadline p
          { tctx with
            avg_runtime :=
              calc_avg tctx.avg_runtime
                (add64 tctx.sum_runtime (sub64 now tctx.last_run_at)) }) ∧
      c.last_run_at = tctx.last_run_at ∧ c.lock_boost = tctx.lock_boost := by
  unfold flash_stopping try_lookup_task_ctx
  dsimp only
  split_ifs
  · refine ⟨_, rfl, rfl, rfl, rfl, ?_, rfl, rfl⟩
    dsimp only
    congr 1
  · refine ⟨_, rfl, rfl, rfl, rfl, ?_, rfl, rfl⟩
    dsimp only
    congr 1

/-- C20. Run-stop accounting: `flash_stopping` at time `now`, with
`elapsed = now - last_run_at`, stores `sum_runtime + elapsed` in `sum_runtime`,
`calc_avg(avg_runtime, new sum_runtime)` in `avg_runtime`,
`dsq_vtime + elapsed * 100 / weight` in `dsq_vtime`, and the new `dsq_vtime` plus
`task_deadline`, evaluated with the new `avg_runtime` and the `avg_nvcsw` from
before the call, in `deadline`; `last_run_at` and `lock_boost` are unchanged. The
operations are those of `u64`; when none of them wraps the sums are the plain
sums. -/
theorem flash_stopping_accounting (now : Nat) (p : task_struct) (tctx : task_ctx)
    (runnable : Bool) :
    ∃ c, (flash_stopping now ⟨p, some tctx⟩ runnable).stor = some c ∧
      c.sum_runtime = add64 tctx.sum_runtime (sub64 now tctx.last_run_at) ∧
      c.avg_runtime = calc_avg tctx.avg_runtime c.sum_runtime ∧
      (flash_stopping now ⟨p, some tctx⟩ runnable).p.scx.dsq_vtime =
        add64 p.scx.dsq_vtime (mul64 (sub64 now tctx.last_run_at) 100 / task_weight p tctx) ∧
      c.deadline = add64 (flash_stopping now ⟨p, some tctx⟩ runnable).p.scx.dsq_vtime
        (task_deadline (flash_stopping now ⟨p, some tctx⟩ runnable).p
          { c with avg_nvcsw := tctx.avg_nvcsw }) ∧
      c.last_run_at = tctx.last_run_at ∧ c.lock_boost = tctx.lock_boost ∧
      (tctx.last_run_at ≤ now → now < 18446744073709551616 →
        tctx.sum_runtime + (now - tctx.last_run_at) < 18446744073709551616 →
        (now - tctx.last_run_at) * 100 < 18446744073709551616 →
        p.scx.dsq_vtime + (now - tctx.last_run_at) * 100 / task_weight p tctx
          < 18446744073709551616 →
        c.sum_runtime = tctx.sum_runtime + (now - tctx.last_run_at) ∧
        (flash_stopping now ⟨p, some tctx⟩ runnable).p.scx.dsq_vtime =
          p.scx.dsq_vtime + (now - tctx.last_run_at) * 100 / task_weight p tctx) := by
  obtain ⟨c, hc, hsum, havg, hp, hd, hl, hb⟩ :=
    flash_stopping_accounting_fields now p tctx runnable
  have hvt : (flash_stopping now ⟨p, some tctx⟩ runnable).p.scx.dsq_vtime =
      add64 p.scx.dsq_vtime (mul64 (sub64 now tctx.last_run_at) 100 / task_weight p tctx) := by
    rw [hp]
  refine ⟨c, hc, hsum, ?_, hvt, ?_, hl, hb, ?_⟩
  · rw [havg, hsum]
  · have hdc := task_deadline_congr p (flash_stopping now ⟨p, some tctx⟩ runnable).p
      { tctx with avg_runtime := calc_avg tctx.avg_runtime
                    (add64 tctx.sum_runtime (sub64 now tctx.last_run_at)) }
      { c with avg_nvcsw := tctx.avg_nvcsw }
      (by rw [hp]; simp [task_weight, hb]) rfl havg.symm
    rw [hdc] at hd
    exact hd
  · intro h1 h2 h3 h4 h5
    have hel : sub64 now tctx.last_run_at = now - tctx.last_run_at := by
      unfold sub64
      omega
    rw [hsum, hvt, hel]
    have hm : mul64 (now - tctx.last_run_at) 100 = (now - tctx.last_run_at) * 100 := by
      unfold mul64
      exact Nat.mod_eq_of_lt h4
    rw [hm]
    unfold add64
    exact ⟨Nat.mod_eq_of_lt h3, Nat.mod_eq_of_lt h5⟩

/-- A context with 40 ns accumulated, last started at time 2000, average 1000 ns. -/
def sample_running_ctx : task_ctx :=
  { task_ctx_zero with sum_runtime := 40, last_run_at := 2000, avg_runtime := 1000 }

/-- Witness of C20: a task of weight 200 that ran for 3000 ns. -/
theorem flash_stopping_accounting_witness :
    ∃ c, (flash_stopping 5000 ⟨user_task 200 0 700, some sample_running_ctx⟩ true).stor
        = some c ∧
      c.sum_runtime = 40 + (5000 - 2000) ∧
      (flash_stopping 5000 ⟨user_task 200 0 700, some sample_running_ctx⟩ true).p.scx.dsq_vtime
        = 700 + (5000 - 2000) * 100 / 200 :=
  match flash_stopping_accounting 5000 (user_task 200 0 700) sample_running_ctx true with
  | ⟨c, hc, _, _, _, _, _, _, h⟩ =>
    ⟨c, hc, h (by decide) (by decide) (by decide) (by decide) (by decide)⟩

/-! ## Stopping: the deadline can retreat -/

/-- The average runtime `flash_stopping` stores when a task stops at `now`. -/
def stopping_avg_runtime (now : Nat) (tctx : task_ctx) : Nat :=
  calc_avg tctx.avg_runtime (add64 tctx.sum_runtime (sub64 now tctx.last_run_at))

/-- The deadline offset `flash_stopping` recomputes when a task stops at `now`. -/
def stopping_offset (now : Nat) (p : task_struct) (tctx : task_ctx) : Nat :=
  task_deadline p { tctx with avg_runtime := stopping_avg_runtime now tctx }

/-- A task of weight 100 enabled at `vtime_now = 1000` with a 1000 Hz tick, then
started at time 10. -/
def enabled_running_task : Task :=
  (flash_running (default_config 1000) 10 (state_queued 1000 0)
    (flash_enable (default_config 1000) 5 (state_queued 1000 0)
      ⟨user_task 100 0 0, some task_ctx_zero⟩).2).2

/-- The task `enabled_running_task` after it ran for 4 ms and stopped at time
4000010. -/
def stopped_task : Task := flash_stopping 4000010 enabled_running_task true

/-- C13, as stated, fails in both sentences. A task enabled at `vtime_now = 1000`
and started at time 10 has deadline 68267666; when it stops at time 1010 its vtime
advances by 1000 but its average runtime drops from 1000000 to 750250, and its
deadline retreats to 51219066 (in the integers and in the wrap-aware order). And
`flash_stopping` and the re-basing in `task_vtime` are not the only operations that
move a deadline: the same task, stopped after a run of 4 ms instead, has deadline
123467666, and `flash_enable` called on it again with `vtime_now = 1000` moves the
deadline back to 68267666. -/
theorem flash_stopping_deadline_counterexample :
    enabled_running_task.stor.map (fun c => c.deadline) = some 68267666 ∧
      (flash_stopping 1010 enabled_running_task true).stor.map (fun c => c.deadline)
        = some 51219066 ∧
      (flash_stopping 1010 enabled_running_task true).stor.map (fun c => c.avg_runtime)
        = some 750250 ∧
      (flash_stopping 1010 enabled_running_task true).p.scx.dsq_vtime = 2000 ∧
      time_before 51219066 68267666 = true ∧
      ¬ (68267666 ≤ 51219066) ∧
      stopped_task.stor.map (fun c => c.deadline) = some 123467666 ∧
      (flash_enable (default_config 1000) 5000000 (state_queued 1000 0)
        stopped_task).2.stor.map (fun c => c.deadline) = some 68267666 := by
  decide

theorem flash_stopping_deadline_no_wrap (now : Nat) (p : task_struct) (tctx : task_ctx)
    (runnable : Bool)
    (hnw : p.scx.dsq_vtime + mul64 (sub64 now tctx.last_run_at) 100 / task_weight p tctx +
      stopping_offset now p tctx < 18446744073709551616) :
    ∃ c, (flash_stopping now ⟨p, some tctx⟩ runnable).stor = some c ∧
      p.scx.dsq_vtime ≤ (flash_stopping now ⟨p, some tctx⟩ runnable).p.scx.dsq_vtime ∧
      c.deadline = (flash_stopping now ⟨p, some tctx⟩ runnable).p.scx.dsq_vtime +
        stopping_offset now p tctx ∧
      (flash_stopping now ⟨p, some tctx⟩ runnable).p.scx.dsq_vtime ≤ c.deadline ∧
      (tctx.deadline ≤ p.scx.dsq_vtime + stopping_offset now p tctx →
        tctx.deadline ≤ c.deadline) := by
  obtain ⟨c, hc, -, -, hp, hd, -, -⟩ := flash_stopping_accounting_fields now p tctx runnable
  have hvt : (flash_stopping now ⟨p, some tctx⟩ runnable).p.scx.dsq_vtime =
      p.scx.dsq_vtime + mul64 (sub64 now tctx.last_run_at) 100 / task_weight p tctx := by
    rw [hp]
    show add64 _ _ = _
    unfold add64
    exact Nat.mod_eq_of_lt (by omega)
  have hdl : c.deadline = (flash_stopping now ⟨p, some tctx⟩ runnable).p.scx.dsq_vtime +
      stopping_offset now p tctx := by
    rw [hd, hvt]
    unfold add64
    exact Nat.mod_eq_of_lt hnw
  generalize mul64 (sub64 now tctx.last_run_at) 100 / task_weight p tctx = q at hvt
  refine ⟨c, hc, by omega, hdl, by omega, ?_⟩
  intro h
  omega

/-- The context of `enabled_running_task`. -/
def enabled_running_ctx : task_ctx :=
  { task_ctx_zero with nvcsw_ts := 5, avg_runtime := 1000000, last_run_at := 10,
                       deadline := 68267666 }

/-! ## Deadline: the documented formula -/

/-- The latency priority as the specification writes it, in exact arithmetic:
`min(max(avg_nvcsw * w / 100 - log2(avg_runtime * 100 / w + 1), 0), 39)`. -/
def lat_prio_formula (w avg_nvcsw avg_runtime : Nat) : Nat :=
  min (max (((avg_nvcsw * w / 100 : Nat) : Int) -
    ((log2_u64 (avg_runtime * 100 / w + 1) : Nat) : Int)) 0).toNat 39

/-- The deadline offset as the specification writes it, in exact arithmetic:
`avg_runtime * 1024 / sched_prio_to_weight[39 - lat_prio]`. -/
def task_deadline_formula (w avg_nvcsw avg_runtime : Nat) : Nat :=
  avg_runtime * 1024 / sched_prio_to_weight.getD (39 - lat_prio_formula w avg_nvcsw avg_runtime) 0

/-- The latency priority of the specification with the products and the increment
read as `u64` operations. -/
def lat_prio_formula_u64 (w avg_nvcsw avg_runtime : Nat) : Nat :=
  min (max (((mul64 avg_nvcsw w / 100 : Nat) : Int) -
    ((log2_u64 (add64 (mul64 avg_runtime 100 / w) 1) : Nat) : Int)) 0).toNat 39

/-- The deadline offset of the specification with the products read as `u64`
operations. -/
def task_deadline_formula_u64 (w avg_nvcsw avg_runtime : Nat) : Nat :=
  mul64 avg_runtime 1024 /
    sched_prio_to_weight.getD (39 - lat_prio_formula_u64 w avg_nvcsw avg_runtime) 0

theorem task_lat_prio_eq_formula_u64 (p : task_struct) (tctx : task_ctx) :
    task_lat_prio p tctx =
      lat_prio_formula_u64 (task_weight p tctx) tctx.avg_nvcsw tctx.avg_runtime := by
  unfold task_lat_prio lat_prio_formula_u64 scale_up_fair scale_inverse_fair
  dsimp only
  have hm : max_sched_prio - 1 = 39 := by decide
  rw [hm]
  have hA : mul64 tctx.avg_nvcsw (task_weight p tctx) / 100 < 18446744073709551616 := by
    unfold mul64
    have := Nat.mod_lt (tctx.avg_nvcsw * task_weight p tctx)
      (by decide : 0 < 18446744073709551616)
    omega
  have hB := log2_u64_le (add64 (mul64 tctx.avg_runtime 100 / task_weight p tctx) 1)
  generalize mul64 tctx.avg_nvcsw (task_weight p tctx) / 100 = a at hA ⊢
  generalize log2_u64 (add64 (mul64 tctx.avg_runtime 100 / task_weight p tctx) 1) = b at hB ⊢
  unfold MIN sub64
  split_ifs <;> omega

theorem task_deadline_eq_formula_u64 (p : task_struct) (tctx : task_ctx) :
    task_deadline p tctx =
      task_deadline_formula_u64 (task_weight p tctx) tctx.avg_nvcsw tctx.avg_runtime := by
  unfold task_deadline task_deadline_formula_u64
  dsimp only
  have hlt := task_lat_prio_lt p tctx
  have hmax : max_sched_prio = 40 := by decide
  have hnot : ¬ task_lat_prio p tctx ≥ max_sched_prio := by omega
  simp only [sched_prio_to_latency_weight, if_neg hnot]
  rw [← task_lat_prio_eq_formula_u64, hmax]
  have hi : 40 - task_lat_prio p tctx - 1 = 39 - task_lat_prio p tctx := by omega
  rw [hi]

theorem task_deadline_formula_u64_eq (w avg_nvcsw avg_runtime : Nat)
    (hn : avg_nvcsw * w < 18446744073709551616)
    (hr : avg_runtime * 1024 < 18446744073709551616) :
    task_deadline_formula_u64 w avg_nvcsw avg_runtime =
      task_deadline_formula w avg_nvcsw avg_runtime := by
  have h100 : avg_runtime * 100 < 18446744073709551616 := by omega
  have hm1 : mul64 avg_nvcsw w = avg_nvcsw * w := Nat.mod_eq_of_lt hn
  have hm2 : mul64 avg_runtime 100 = avg_runtime * 100 := Nat.mod_eq_of_lt h100
  have hm3 : mul64 avg_runtime 1024 = avg_runtime * 1024 := Nat.mod_eq_of_lt hr
  have hq : avg_runtime * 100 / w ≤ avg_runtime * 100 := Nat.div_le_self _ _
  have ha : add64 (avg_runtime * 100 / w) 1 = avg_runtime * 100 / w + 1 := by
    unfold add64
    exact Nat.mod_eq_of_lt (by omega)
  unfold task_deadline_formula_u64 task_deadline_formula lat_prio_formula_u64 lat_prio_formula
  rw [hm1, hm2, hm3, ha]

/-- C15. Deadline formula: for every task of weight `w ≥ 1` (`w = 10000` when
`lock_boost` is set, the configured weight otherwise), `task_deadline` returns
`avg_runtime * 1024 / sched_prio_to_weight[39 - lat_prio]` with
`lat_prio = min(max(avg_nvcsw * w / 100 - log2(avg_runtime * 100 / w + 1), 0), 39)`,
the divisions being integer divisions and `log2` the helper `log2_u64`. The
equality holds for all inputs with the products read as `u64` products, and with
the exact products when `avg_nvcsw * w` and `avg_runtime * 1024` are below `2^64`. -/
theorem task_deadline_formula_correct (p : task_struct) (tctx : task_ctx)
    (hw : 1 ≤ task_weight p tctx) :
    (tctx.lock_boost = true → task_weight p tctx = 10000) ∧
      (tctx.lock_boost = false → task_weight p tctx = p.scx.weight) ∧
      task_deadline p tctx =
        task_deadline_formula_u64 (task_weight p tctx) tctx.avg_nvcsw tctx.avg_runtime ∧
      (tctx.avg_nvcsw * task_weight p tctx < 18446744073709551616 →
        tctx.avg_runtime * 1024 < 18446744073709551616 →
        task_deadline p tctx =
          task_deadline_formula (task_weight p tctx) tctx.avg_nvcsw tctx.avg_runtime) := by
  refine ⟨?_, ?_, task_deadline_eq_formula_u64 p tctx, ?_⟩
  · intro h
    simp [task_weight, h, MAX_TASK_WEIGHT]
  · intro h
    simp [task_weight, h]
  · intro hn hr
    rw [task_deadline_eq_formula_u64, task_deadline_formula_u64_eq _ _ _ hn hr]

/-- Witness of C15: weight 100, 30 yields per second, 1 ms runs. -/
theorem task_deadline_formula_correct_witness :
    task_deadline (user_task 100 0 0)
        { task_ctx_zero with avg_nvcsw := 30, avg_runtime := 1000000 } =
      task_deadline_formula 100 30 1000000 :=
  (task_deadline_formula_correct (user_task 100 0 0)
    { task_ctx_zero with avg_nvcsw := 30, avg_runtime := 1000000 }
    (by decide)).2.2.2 (by decide) (by decide)

/-! ## Sequences of calls -/

/-- What a single callback can make of a task: `task_hook cfg t t1` holds when
some callback of the policy, called on `t` in some global state, leaves `t1`. -/
inductive task_hook (cfg : Config) : Task → Task → Prop
  | fsync (t : Task) : task_hook cfg t (kprobe_vfs_fsync_range t).1
  | enqueue (s : State) (t : Task) (enq_flags : Nat) :
      task_hook cfg t (flash_enqueue cfg s t enq_flags).2
  | dispatch (s : State) (cpu : Nat) (t : Task) :
      task_hook cfg t ((flash_dispatch cfg s cpu (some t)).2.getD t)
  | running (s : State) (now : Nat) (t : Task) : task_hook cfg t (flash_running cfg now s t).2
  | stopping (now : Nat) (t : Task) (runnable : Bool) :
      task_hook cfg t (flash_stopping now t runnable)
  | runnable (t : Task) (enq_flags : Nat) : task_hook cfg t (flash_runnable t enq_flags)
  | enable (s : State) (now : Nat) (t : Task) : task_hook cfg t (flash_enable cfg now s t).2
  | init_task (t : Task) (alloc_ok : Bool) : task_hook cfg t (flash_init_task t alloc_ok).1

theorem set_lookup (l : List Task) (i j : Nat) (a t : Task) (h : l[j]? = some t) :
    (l.set i a)[j]? = some (if i = j then a else t) := by
  rw [List.getElem?_set]
  have hj : j < l.length := (List.getElem?_eq_some.1 h).1
  by_cases hij : i = j
  · subst hij
    simp [hj]
  · simp [hij, h]

theorem set_lookup_hook (cfg : Config) (l : List Task) (i j : Nat) (ti a t : Task)
    (hi : l[i]? = some ti) (h : l[j]? = some t) (ha : task_hook cfg ti a) :
    ∃ t1, (l.set i a)[j]? = some t1 ∧ (t1 = t ∨ task_hook cfg t t1) := by
  refine ⟨_, set_lookup l i j a t h, ?_⟩
  by_cases hij : i = j
  · subst hij
    rw [h] at hi
    cases hi
    simp only [if_true]
    exact Or.inr ha
  · simp only [if_neg hij]
    exact Or.inl trivial

/-- One call changes a task at most by one callback applied to it. -/
theorem step_task (cfg : Config) (sys : System) (ev : Event) (j : Nat) (t : Task)
    (h : sys.tasks[j]? = some t) :
    ∃ t1, (step cfg sys ev).tasks[j]? = some t1 ∧ (t1 = t ∨ task_hook cfg t t1) := by
  cases ev with
  | fsync i =>
    simp only [step]
    split
    · next ti hi => exact set_lookup_hook cfg _ i j ti _ t hi h (task_hook.fsync ti)
    · exact ⟨t, h, Or.inl rfl⟩
  | select_cpu i cpu is_idle =>
    simp only [step]
    split <;> exact ⟨t, h, Or.inl rfl⟩
  | enqueue i enq_flags =>
    simp only [step]
    split
    · next ti hi => exact set_lookup_hook cfg _ i j ti _ t hi h (task_hook.enqueue _ ti _)
    · exact ⟨t, h, Or.inl rfl⟩
  | dispatch cpu prev =>
    simp only [step]
    split
    · split
      · next ti hi => exact set_lookup_hook cfg _ _ j ti _ t hi h (task_hook.dispatch _ cpu ti)
      · exact ⟨t, h, Or.inl rfl⟩
    · exact ⟨t, h, Or.inl rfl⟩
  | running i now =>
    simp only [step]
    split
    · next ti hi => exact set_lookup_hook cfg _ i j ti _ t hi h (task_hook.running _ now ti)
    · exact ⟨t, h, Or.inl rfl⟩
  | stopping i now runnable =>
    simp only [step]
    split
    · next ti hi => exact set_lookup_hook cfg _ i j ti _ t hi h (task_hook.stopping now ti _)
    · exact ⟨t, h, Or.inl rfl⟩
  | runnable i enq_flags =>
    simp only [step]
    split
    · next ti hi => exact set_lookup_hook cfg _ i j ti _ t hi h (task_hook.runnable ti _)
    · exact ⟨t, h, Or.inl rfl⟩
  | enable i now =>
    simp only [step]
    split
    · next ti hi => exact set_lookup_hook cfg _ i j ti _ t hi h (task_hook.enable _ now ti)
    · exact ⟨t, h, Or.inl rfl⟩
  | init_task i alloc_ok =>
    simp only [step]
    split
    · next ti hi => exact set_lookup_hook cfg _ i j ti _ t hi h (task_hook.init_task ti _)
    · exact ⟨t, h, Or.inl rfl⟩
  | init nr err =>
    simp only [step, flash_init]
    split_ifs <;> exact ⟨t, h, Or.inl rfl⟩
  | exit ei => exact ⟨t, h, Or.inl rfl⟩

/-! ## The average runtime stays positive -/

/-- The invariant on a task: it has a context whose `avg_runtime` is a `u64` value
that is at least 1. -/
def avg_runtime_ok (t : Task) : Prop :=
  ∃ c, t.stor = some c ∧ 1 ≤ c.avg_runtime ∧ c.avg_runtime < 18446744073709551616

theorem calc_avg_pos (a s : Nat) (ha : 1 ≤ a) (ha2 : a < 18446744073709551616)
    (hs : s < 18446744073709551616) :
    1 ≤ calc_avg a s ∧ calc_avg a s < 18446744073709551616 := by
  have e1 : sub64 a (a / 4) = a - a / 4 := by
    unfold sub64
    rw [Nat.mod_eq_of_lt ha2, Nat.mod_eq_of_lt (by omega : a / 4 < 18446744073709551616)]
    have h : a + 18446744073709551616 - a / 4 = (a - a / 4) + 18446744073709551616 := by
      omega
    rw [h, Nat.add_mod_right]
    exact Nat.mod_eq_of_lt (by omega)
  have e2 : add64 (a - a / 4) (s / 4) = a - a / 4 + s / 4 := by
    unfold add64
    exact Nat.mod_eq_of_lt (by omega)
  unfold calc_avg
  rw [e1, e2]
  omega

theorem add64_lt (a b : Nat) : add64 a b < 18446744073709551616 := by
  unfold add64
  omega

theorem task_refill_slice_stor (cfg : Config) (s : State) (t : Task) :
    (task_refill_slice cfg s t).stor = t.stor := by
  unfold task_refill_slice try_lookup_task_ctx
  split <;> rfl

theorem task_refill_slice_dsq_vtime (cfg : Config) (s : State) (t : Task) :
    (task_refill_slice cfg s t).p.scx.dsq_vtime = t.p.scx.dsq_vtime := by
  unfold task_refill_slice try_lookup_task_ctx
  split <;> rfl

theorem task_vtime_avg_runtime (cfg : Config) (vtime_now : Nat) (p : task_struct)
    (tctx : task_ctx) :
    (task_vtime cfg vtime_now p tctx).2.1.avg_runtime = tctx.avg_runtime := by
  unfold task_vtime
  dsimp only
  split_ifs <;> rfl

theorem avg_runtime_ok_hook (cfg : Config) (hS : 1 ≤ SLICE_MIN cfg) (t t1 : Task)
    (hk : task_hook cfg t t1) (hok : avg_runtime_ok t) : avg_runtime_ok t1 := by
  obtain ⟨c, hc, h1, h2⟩ := hok
  cases hk with
  | fsync _ =>
    refine ⟨{ c with avg_nvcsw := 0 }, ?_, h1, h2⟩
    simp [kprobe_vfs_fsync_range, try_lookup_task_ctx, hc]
  | enqueue s _ enq_flags =>
    unfold flash_enqueue
    split_ifs
    · exact ⟨c, hc, h1, h2⟩
    · simp only [try_lookup_task_ctx, hc]
      refine ⟨_, rfl, ?_, ?_⟩ <;> rw [task_vtime_avg_runtime] <;> assumption
  | dispatch s cpu _ =>
    unfold flash_dispatch
    split
    · exact ⟨c, hc, h1, h2⟩
    · dsimp only
      split_ifs
      · exact ⟨c, by rw [Option.getD_some, task_refill_slice_stor, hc], h1, h2⟩
      · exact ⟨c, hc, h1, h2⟩
  | running s now _ =>
    unfold flash_running
    simp only [try_lookup_task_ctx, task_refill_slice_stor, hc]
    exact ⟨_, rfl, h1, h2⟩
  | stopping now _ r =>
    obtain ⟨p, stor⟩ := t
    simp only at hc
    subst hc
    obtain ⟨c1, hc1, -, havg, -, -, -, -⟩ := flash_stopping_accounting_fields now p c r
    have hb := calc_avg_pos c.avg_runtime (add64 c.sum_runtime (sub64 now c.last_run_at))
      h1 h2 (add64_lt _ _)
    exact ⟨c1, hc1, by rw [havg]; exact hb.1, by rw [havg]; exact hb.2⟩
  | runnable _ enq_flags =>
    refine ⟨{ c with sum_runtime := 0 }, ?_, h1, h2⟩
    simp [flash_runnable, try_lookup_task_ctx, hc]
  | enable s now _ =>
    have hle := SLICE_MIN_le cfg
    unfold flash_enable
    simp only [try_lookup_task_ctx, hc]
    exact ⟨_, rfl, hS, by show SLICE_MIN cfg < _; omega⟩
  | init_task _ alloc_ok =>
    refine ⟨c, ?_, h1, h2⟩
    simp [flash_init_task, hc]

theorem avg_runtime_ok_step (cfg : Config) (hS : 1 ≤ SLICE_MIN cfg) (sys : System)
    (ev : Event) (i : Nat) (t : Task) (h : sys.tasks[i]? = some t) (hok : avg_runtime_ok t) :
    ∃ t1, (step cfg sys ev).tasks[i]? = some t1 ∧ avg_runtime_ok t1 := by
  obtain ⟨t1, h1, hcase⟩ := step_task cfg sys ev i t h
  refine ⟨t1, h1, ?_⟩
  rcases hcase with heq | hk
  · rw [heq]
    exact hok
  · exact avg_runtime_ok_hook cfg hS t t1 hk hok

theorem avg_runtime_ok_run (cfg : Config) (hS : 1 ≤ SLICE_MIN cfg) (evs : List Event) :
    ∀ (sys : System) (i : Nat) (t : Task), sys.tasks[i]? = some t → avg_runtime_ok t →
      ∃ t1, (run cfg sys evs).tasks[i]? = some t1 ∧ avg_runtime_ok t1 := by
  induction evs with
  | nil =>
    intro sys i t h hok
    exact ⟨t, h, hok⟩
  | cons ev rest ih =>
    intro sys i t h hok
    obtain ⟨t1, h1, hok1⟩ := avg_runtime_ok_step cfg hS sys ev i t h hok
    exact ih (step cfg sys ev) i t1 h1 hok1

/-- A system with one user task of weight 100 that has a fresh context, global
vtime 1000 and an empty shared queue. -/
def sample_system : System :=
  ⟨state_queued 1000 0, [⟨user_task 100 0 0, some task_ctx_zero⟩], 0, none⟩

/-- C12. `avg_runtime ≥ 1` invariant: with `SLICE_MIN ≥ 1`, `flash_enable` on a
task with a context leaves `1 ≤ avg_runtime < 2^64`; every later call of the policy
(on this task or on another one: stopping for every time and `sum_runtime`,
running, runnable, enqueue, dispatch, the fsync probe, enable, init_task, init,
exit) keeps the task's context and keeps `1 ≤ avg_runtime < 2^64`, so this holds
after every sequence of calls; and `calc_avg(a, s) ≥ 1` for all `u64` values `a ≥ 1`
and `s`. -/
theorem avg_runtime_invariant (cfg : Config) (hS : 1 ≤ SLICE_MIN cfg) :
    (∀ (now : Nat) (s : State) (p : task_struct) (c : task_ctx),
        avg_runtime_ok (flash_enable cfg now s ⟨p, some c⟩).2) ∧
      (∀ (sys : System) (ev : Event) (i : Nat) (t : Task),
        sys.tasks[i]? = some t → avg_runtime_ok t →
        ∃ t1, (step cfg sys ev).tasks[i]? = some t1 ∧ avg_runtime_ok t1) ∧
      (∀ (evs : List Event) (sys : System) (i : Nat) (t : Task),
        sys.tasks[i]? = some t → avg_runtime_ok t →
        ∃ t1, (run cfg sys evs).tasks[i]? = some t1 ∧ avg_runtime_ok t1) ∧
      (∀ a s : Nat, 1 ≤ a → a < 18446744073709551616 → s < 18446744073709551616 →
        1 ≤ calc_avg a s) := by
  refine ⟨?_, avg_runtime_ok_step cfg hS, avg_runtime_ok_run cfg hS, ?_⟩
  · intro now s p c
    have hle := SLICE_MIN_le cfg
    unfold flash_enable
    simp only [try_lookup_task_ctx]
    exact ⟨_, rfl, hS, by show SLICE_MIN cfg < _; omega⟩
  · intro a s ha ha2 hs
    exact (calc_avg_pos a s ha ha2 hs).1

/-- Witness of C12: a task is enabled, runs for 1000 ns, stops, becomes runnable,
is enqueued and calls fsync. -/
theorem avg_runtime_invariant_witness :
    1 ≤ SLICE_MIN (default_config 1000) ∧
      ∃ t1, (run (default_config 1000) (step (default_config 1000) sample_system (.enable 0 5))
          [.running 0 10, .stopping 0 1010 true, .runnable 0 0, .enqueue 0 0,
            .fsync 0]).tasks[0]? = some t1 ∧ avg_runtime_ok t1 :=
  ⟨by decide,
    (avg_runtime_invariant (default_config 1000) (by decide)).2.2.1 _ _ 0 _ rfl
      ((avg_runtime_invariant (default_config 1000) (by decide)).1 5 (state_queued 1000 0)
        (user_task 100 0 0) task_ctx_zero)⟩

/-! ## Global state: what each callback writes -/

/-- The test of the kernel-thread fast path in `flash_enqueue`. -/
def kthread_fast_path (cfg : Config) (t : Task) : Bool :=
  is_kthread t.p && (cfg.local_kthreads || decide (t.p.nr_cpus_allowed = 1))

/-- A counter is unchanged or incremented by one (as a `u64`). -/
def counter_step (a b : Nat) : Prop := b = a ∨ b = add64 a 1

theorem flash_select_cpu_globals (s : State) (t : Task) (cpu : Nat) (is_idle : Bool) :
    (flash_select_cpu s t cpu is_idle).1.vtime_now = s.vtime_now ∧
      (flash_select_cpu s t cpu is_idle).1.nr_kthread_dispatches = s.nr_kthread_dispatches ∧
      (flash_select_cpu s t cpu is_idle).1.nr_shared_dispatches = s.nr_shared_dispatches ∧
      (flash_select_cpu s t cpu is_idle).1.nr_direct_dispatches =
        (if is_idle then add64 s.nr_direct_dispatches 1 else s.nr_direct_dispatches) := by
  unfold flash_select_cpu
  cases is_idle <;> simp

theorem flash_enqueue_globals (cfg : Config) (s : State) (t : Task) (enq_flags : Nat) :
    (flash_enqueue cfg s t enq_flags).1.vtime_now = s.vtime_now ∧
      (flash_enqueue cfg s t enq_flags).1.nr_direct_dispatches = s.nr_direct_dispatches ∧
      (flash_enqueue cfg s t enq_flags).1.nr_kthread_dispatches =
        (if kthread_fast_path cfg t then add64 s.nr_kthread_dispatches 1
          else s.nr_kthread_dispatches) ∧
      (flash_enqueue cfg s t enq_flags).1.nr_shared_dispatches =
        (if kthread_fast_path cfg t then s.nr_shared_dispatches
          else if t.stor.isSome then add64 s.nr_shared_dispatches 1
          else s.nr_shared_dispatches) := by
  unfold flash_enqueue kthread_fast_path try_lookup_task_ctx
  by_cases hf : (is_kthread t.p && (cfg.local_kthreads || decide (t.p.nr_cpus_allowed = 1)))
      = true
  · simp [hf]
  · cases hst : t.stor with
    | none => simp [hf]
    | some c =>
      simp only [hf]
      split_ifs <;> simp_all

theorem flash_dispatch_globals (cfg : Config) (s : State) (cpu : Nat) (prev : Option Task) :
    (flash_dispatch cfg s cpu prev).1.vtime_now = s.vtime_now ∧
      (flash_dispatch cfg s cpu prev).1.nr_direct_dispatches = s.nr_direct_dispatches ∧
      (flash_dispatch cfg s cpu prev).1.nr_kthread_dispatches = s.nr_kthread_dispatches ∧
      (flash_dispatch cfg s cpu prev).1.nr_shared_dispatches = s.nr_shared_dispatches := by
  unfold flash_dispatch
  split
  · exact ⟨rfl, rfl, rfl, rfl⟩
  · split
    · split_ifs <;> exact ⟨rfl, rfl, rfl, rfl⟩
    · exact ⟨rfl, rfl, rfl, rfl⟩

theorem flash_running_globals (cfg : Config) (now : Nat) (s : State) (t : Task) :
    (flash_running cfg now s t).1.vtime_now =
        (if t.stor.isSome ∧ time_before s.vtime_now t.p.scx.dsq_vtime = true then
          t.p.scx.dsq_vtime else s.vtime_now) ∧
      (flash_running cfg now s t).1.nr_direct_dispatches = s.nr_direct_dispatches ∧
      (flash_running cfg now s t).1.nr_kthread_dispatches = s.nr_kthread_dispatches ∧
      (flash_running cfg now s t).1.nr_shared_dispatches = s.nr_shared_dispatches := by
  unfold flash_running
  simp only [try_lookup_task_ctx, task_refill_slice_stor, task_refill_slice_dsq_vtime]
  cases hst : t.stor with
  | none => simp
  | some c =>
    dsimp only
    split_ifs <;> simp_all

theorem flash_enable_globals (cfg : Config) (now : Nat) (s : State) (t : Task) :
    (flash_enable cfg now s t).1.vtime_now = s.vtime_now ∧
      (flash_enable cfg now s t).1.nr_direct_dispatches = s.nr_direct_dispatches ∧
      (flash_enable cfg now s t).1.nr_kthread_dispatches = s.nr_kthread_dispatches ∧
      (flash_enable cfg now s t).1.nr_shared_dispatches = s.nr_shared_dispatches := by
  unfold flash_enable try_lookup_task_ctx
  cases t.stor <;> exact ⟨rfl, rfl, rfl, rfl⟩

theorem flash_init_globals (sys : System) (nr : Nat) (err : Int) :
    (flash_init sys nr err).1.st.vtime_now = sys.st.vtime_now ∧
      (flash_init sys nr err).1.st.nr_direct_dispatches = sys.st.nr_direct_dispatches ∧
      (flash_init sys nr err).1.st.nr_kthread_dispatches = sys.st.nr_kthread_dispatches ∧
      (flash_init sys nr err).1.st.nr_shared_dispatches = sys.st.nr_shared_dispatches := by
  unfold flash_init
  dsimp only
  split_ifs <;> exact ⟨rfl, rfl, rfl, rfl⟩

/-! ## The dispatch counters -/

theorem counter_step_same (a b : Nat) (h : b = a) : counter_step a b := Or.inl h

theorem counter_step_ite (a b : Nat) (c : Prop) [Decidable c]
    (h : b = if c then add64 a 1 else a) : counter_step a b := by
  unfold counter_step
  split_ifs at h
  · exact Or.inr h
  · exact Or.inl h

theorem counter_step_ite2 (a b : Nat) (c d : Prop) [Decidable c] [Decidable d]
    (h : b = if c then a else if d then add64 a 1 else a) : counter_step a b := by
  unfold counter_step
  split_ifs at h
  · exact Or.inl h
  · exact Or.inr h
  · exact Or.inl h

theorem step_counters (cfg : Config) (sys : System) (ev : Event) :
    counter_step sys.st.nr_kthread_dispatches (step cfg sys ev).st.nr_kthread_dispatches ∧
      counter_step sys.st.nr_direct_dispatches (step cfg sys ev).st.nr_direct_dispatches ∧
      counter_step sys.st.nr_shared_dispatches (step cfg sys ev).st.nr_shared_dispatches := by
  have hsame : counter_step sys.st.nr_kthread_dispatches sys.st.nr_kthread_dispatches ∧
      counter_step sys.st.nr_direct_dispatches sys.st.nr_direct_dispatches ∧
      counter_step sys.st.nr_shared_dispatches sys.st.nr_shared_dispatches :=
    ⟨Or.inl rfl, Or.inl rfl, Or.inl rfl⟩
  cases ev with
  | fsync i =>
    simp only [step]
    split <;> exact hsame
  | select_cpu i cpu is_idle =>
    simp only [step]
    split
    · next t _ =>
      have h := flash_select_cpu_globals sys.st t cpu is_idle
      exact ⟨counter_step_same _ _ h.2.1, counter_step_ite _ _ _ h.2.2.2,
        counter_step_same _ _ h.2.2.1⟩
    · exact hsame
  | enqueue i enq_flags =>
    simp only [step]
    split
    · next t _ =>
      have h := flash_enqueue_globals cfg sys.st t enq_flags
      exact ⟨counter_step_ite _ _ _ h.2.2.1, counter_step_same _ _ h.2.1,
        counter_step_ite2 _ _ _ _ h.2.2.2⟩
    · exact hsame
  | dispatch cpu prev =>
    simp only [step]
    split
    · split
      · next t _ =>
        have h := flash_dispatch_globals cfg sys.st cpu (some t)
        exact ⟨counter_step_same _ _ h.2.2.1, counter_step_same _ _ h.2.1,
          counter_step_same _ _ h.2.2.2⟩
      · have h := flash_dispatch_globals cfg sys.st cpu none
        exact ⟨counter_step_same _ _ h.2.2.1, counter_step_same _ _ h.2.1,
          counter_step_same _ _ h.2.2.2⟩
    · have h := flash_dispatch_globals cfg sys.st cpu none
      exact ⟨counter_step_same _ _ h.2.2.1, counter_step_same _ _ h.2.1,
        counter_step_same _ _ h.2.2.2⟩
  | running i now =>
    simp only [step]
    split
    · next t _ =>
      have h := flash_running_globals cfg now sys.st t
      exact ⟨counter_step_same _ _ h.2.2.1, counter_step_same _ _ h.2.1,
        counter_step_same _ _ h.2.2.2⟩
    · exact hsame
  | stopping i now r =>
    simp only [step]
    split <;> exact hsame
  | runnable i enq_flags =>
    simp only [step]
    split <;> exact hsame
  | enable i now =>
    simp only [step]
    split
    · next t _ =>
      have h := flash_enable_globals cfg now sys.st t
      exact ⟨counter_step_same _ _ h.2.2.1, counter_step_same _ _ h.2.1,
        counter_step_same _ _ h.2.2.2⟩
    · exact hsame
  | init_task i alloc_ok =>
    simp only [step]
    split <;> exact hsame
  | init nr err =>
    have h := flash_init_globals sys nr err
    exact ⟨counter_step_same _ _ h.2.2.1, counter_step_same _ _ h.2.1,
      counter_step_same _ _ h.2.2.2⟩
  | exit ei => exact hsame

theorem dsq_insert_vtime_length (q : List dsq_entry) (e : dsq_entry) :
    (dsq_insert_vtime q e).length = q.length + 1 := by
  induction q with
  | nil => rfl
  | cons x xs ih =>
    unfold dsq_insert_vtime
    split_ifs
    · rfl
    · simp [ih]

theorem flash_enqueue_shared_length (cfg : Config) (s : State) (t : Task) (enq_flags : Nat) :
    (flash_enqueue cfg s t enq_flags).1.shared_dsq.length =
      (if kthread_fast_path cfg t then s.shared_dsq.length
        else if t.stor.isSome then s.shared_dsq.length + 1
        else s.shared_dsq.length) := by
  unfold flash_enqueue kthread_fast_path try_lookup_task_ctx
  by_cases hf : (is_kthread t.p && (cfg.local_kthreads || decide (t.p.nr_cpus_allowed = 1)))
      = true
  · simp [hf]
  · cases hst : t.stor with
    | none => simp [hf]
    | some c =>
      simp only [hf]
      split_ifs <;> simp_all [dsq_insert_vtime_length]

/-- C16. Dispatch counters only grow: every call of the policy leaves each of
`nr_kthread_dispatches`, `nr_direct_dispatches` and `nr_shared_dispatches`
unchanged or incremented by exactly one (as a `u64`). `flash_select_cpu` increments
`nr_direct_dispatches` exactly when the selected CPU is idle and touches no other
counter. `flash_enqueue` increments `nr_kthread_dispatches` exactly on the
kernel-thread fast path, increments `nr_shared_dispatches` exactly when the fast
path is not taken and the task has a context (the insertion into the shared queue),
and increments neither when the task has no context; it never touches
`nr_direct_dispatches`, and the shared queue grows by one entry exactly when
`nr_shared_dispatches` is incremented. -/
theorem dispatch_counters_step (cfg : Config) (sys : System) (ev : Event) (s : State)
    (t : Task) (cpu enq_flags : Nat) (is_idle : Bool) :
    (counter_step sys.st.nr_kthread_dispatches (step cfg sys ev).st.nr_kthread_dispatches ∧
      counter_step sys.st.nr_direct_dispatches (step cfg sys ev).st.nr_direct_dispatches ∧
      counter_step sys.st.nr_shared_dispatches (step cfg sys ev).st.nr_shared_dispatches) ∧
    ((flash_select_cpu s t cpu is_idle).1.nr_direct_dispatches =
        (if is_idle then add64 s.nr_direct_dispatches 1 else s.nr_direct_dispatches) ∧
      (flash_select_cpu s t cpu is_idle).1.nr_kthread_dispatches = s.nr_kthread_dispatches ∧
      (flash_select_cpu s t cpu is_idle).1.nr_shared_dispatches = s.nr_shared_dispatches) ∧
    ((flash_enqueue cfg s t enq_flags).1.nr_kthread_dispatches =
        (if kthread_fast_path cfg t then add64 s.nr_kthread_dispatches 1
          else s.nr_kthread_dispatches) ∧
      (flash_enqueue cfg s t enq_flags).1.nr_shared_dispatches =
        (if kthread_fast_path cfg t then s.nr_shared_dispatches
          else if t.stor.isSome then add64 s.nr_shared_dispatches 1
          else s.nr_shared_dispatches) ∧
      (flash_enqueue cfg s t enq_flags).1.nr_direct_dispatches = s.nr_direct_dispatches ∧
      (flash_enqueue cfg s t enq_flags).1.shared_dsq.length =
        (if kthread_fast_path cfg t then s.shared_dsq.length
          else if t.stor.isSome then s.shared_dsq.length + 1
          else s.shared_dsq.length)) := by
  have h1 := flash_select_cpu_globals s t cpu is_idle
  have h2 := flash_enqueue_globals cfg s t enq_flags
  exact ⟨step_counters cfg sys ev, ⟨h1.2.2.2, h1.2.1, h1.2.2.1⟩, h2.2.2.1, h2.2.2.2, h2.2.1,
    flash_enqueue_shared_length cfg s t enq_flags⟩

/-! ## The global virtual time -/

theorem step_vtime_now (cfg : Config) (sys : System) (ev : Event) :
    (step cfg sys ev).st.vtime_now = sys.st.vtime_now ∨
      ∃ i now t, ev = Event.running i now ∧ sys.tasks[i]? = some t ∧ t.stor.isSome = true ∧
        time_before sys.st.vtime_now t.p.scx.dsq_vtime = true ∧
        (step cfg sys ev).st.vtime_now = t.p.scx.dsq_vtime := by
  cases ev with
  | fsync i =>
    simp only [step]
    split <;> exact Or.inl rfl
  | select_cpu i cpu is_idle =>
    simp only [step]
    split
    · next t _ => exact Or.inl (flash_select_cpu_globals sys.st t cpu is_idle).1
    · exact Or.inl rfl
  | enqueue i enq_flags =>
    simp only [step]
    split
    · next t _ => exact Or.inl (flash_enqueue_globals cfg sys.st t enq_flags).1
    · exact Or.inl rfl
  | dispatch cpu prev =>
    simp only [step]
    split
    · split
      · next t _ => exact Or.inl (flash_dispatch_globals cfg sys.st cpu (some t)).1
      · exact Or.inl (flash_dispatch_globals cfg sys.st cpu none).1
    · exact Or.inl (flash_dispatch_globals cfg sys.st cpu none).1
  | running i now =>
    simp only [step]
    split
    · next t ht =>
      have h := (flash_running_globals cfg now sys.st t).1
      by_cases hc : t.stor.isSome = true ∧ time_before sys.st.vtime_now t.p.scx.dsq_vtime = true
      · rw [if_pos hc] at h
        exact Or.inr ⟨i, now, t, rfl, ht, hc.1, hc.2, h⟩
      · rw [if_neg hc] at h
        exact Or.inl h
    · exact Or.inl rfl
  | stopping i now r =>
    simp only [step]
    split <;> exact Or.inl rfl
  | runnable i enq_flags =>
    simp only [step]
    split <;> exact Or.inl rfl
  | enable i now =>
    simp only [step]
    split
    · next t _ => exact Or.inl (flash_enable_globals cfg now sys.st t).1
    · exact Or.inl rfl
  | init_task i alloc_ok =>
    simp only [step]
    split <;> exact Or.inl rfl
  | init nr err => exact Or.inl (flash_init_globals sys nr err).1
  | exit ei => exact Or.inl rfl

theorem time_before_irrefl (a : Nat) : time_before a a = false := by
  simp only [time_before, sub64, toS64, decide_eq_false_iff_not]
  split_ifs <;> omega

theorem time_before_both (a b : Nat) (h1 : time_before a b = true)
    (h2 : time_before b a = true) : sub64 a b = 9223372036854775808 := by
  simp only [time_before, sub64, toS64, decide_eq_true_eq] at h1 h2
  unfold sub64
  split_ifs at h1 h2 <;> omega

theorem time_before_lt (a b : Nat) (ha : a < 9223372036854775808)
    (hb : b < 9223372036854775808) (h : time_before a b = true) : a < b := by
  simp only [time_before, sub64, toS64, decide_eq_true_eq] at h
  split_ifs at h <;> omega

/-- The global vtime moves forward: it stays, or it moves to a later value in the
wrap-aware order. -/
def vtime_forward (a b : Nat) : Prop := b = a ∨ time_before a b = true

theorem run_vtime_forward (cfg : Config) (evs : List Event) : ∀ sys : System,
    Relation.ReflTransGen vtime_forward sys.st.vtime_now (run cfg sys evs).st.vtime_now := by
  induction evs with
  | nil => intro sys; exact Relation.ReflTransGen.refl
  | cons ev rest ih =>
    intro sys
    have hstep : vtime_forward sys.st.vtime_now (step cfg sys ev).st.vtime_now := by
      rcases step_vtime_now cfg sys ev with h | ⟨i, now, t, -, -, -, hb, hv⟩
      · exact Or.inl h
      · exact Or.inr (by rw [hv]; exact hb)
    exact Relation.ReflTransGen.head hstep (ih (step cfg sys ev))

/-- A system whose only task has vtime `2^63`, with global vtime 0. -/
def antipodal_system : System :=
  ⟨state_queued 0 0, [⟨user_task 100 0 9223372036854775808, some task_ctx_zero⟩], 0, none⟩

/-- C14, as stated, fails in two places. A task whose vtime is exactly `2^63` ahead
of `vtime_now = 0` starts to run: `vtime_now` becomes `2^63`, which `time_before`
places before the old value 0. And a task without a context starts to run with
vtime 5 while `vtime_now = 0`: `vtime_now` is before the task's vtime but is not
written. -/
theorem vtime_now_monotone_counterexample :
    (step (default_config 1000) antipodal_system (.running 0 10)).st.vtime_now
        = 9223372036854775808 ∧
      time_before (step (default_config 1000) antipodal_system (.running 0 10)).st.vtime_now
        antipodal_system.st.vtime_now = true ∧
      time_before (state_queued 0 0).vtime_now (user_task 100 0 5).scx.dsq_vtime = true ∧
      (flash_running (default_config 1000) 10 (state_queued 0 0)
        ⟨user_task 100 0 5, none⟩).1.vtime_now = 0 := by
  decide

/-- C14, amended. `vtime_now` is written only by `flash_running`, and only for a
task that has a context: it becomes the running task's vtime exactly when it is
before that vtime (`time_before`), otherwise it is unchanged, and after the call it
is not before that task's vtime. So after any call `vtime_now` is unchanged or
later in the wrap-aware order, and after any sequence of calls it is reached from
the initial value by such forward moves; it is before its previous value only
when the two are exactly `2^63` apart, and it is at least its previous value as a
number when `vtime_now` and the vtime of every task are below `2^63`. -/
theorem vtime_now_forward (cfg : Config) (sys : System) (ev : Event) (evs : List Event)
    (now : Nat) (s : State) (p : task_struct) (c : task_ctx) :
    ((step cfg sys ev).st.vtime_now = sys.st.vtime_now ∨
      ∃ i now t, ev = Event.running i now ∧ sys.tasks[i]? = some t ∧ t.stor.isSome = true ∧
        time_before sys.st.vtime_now t.p.scx.dsq_vtime = true ∧
        (step cfg sys ev).st.vtime_now = t.p.scx.dsq_vtime) ∧
    ((flash_running cfg now s ⟨p, some c⟩).1.vtime_now =
        (if time_before s.vtime_now p.scx.dsq_vtime = true then p.scx.dsq_vtime
          else s.vtime_now) ∧
      time_before (flash_running cfg now s ⟨p, some c⟩).1.vtime_now p.scx.dsq_vtime = false) ∧
    (flash_running cfg now s ⟨p, none⟩).1.vtime_now = s.vtime_now ∧
    vtime_forward sys.st.vtime_now (step cfg sys ev).st.vtime_now ∧
    Relation.ReflTransGen vtime_forward sys.st.vtime_now (run cfg sys evs).st.vtime_now ∧
    (time_before (step cfg sys ev).st.vtime_now sys.st.vtime_now = true →
      sub64 sys.st.vtime_now (step cfg sys ev).st.vtime_now = 9223372036854775808) ∧
    (sys.st.vtime_now < 9223372036854775808 →
      (∀ t ∈ sys.tasks, t.p.scx.dsq_vtime < 9223372036854775808) →
      sys.st.vtime_now ≤ (step cfg sys ev).st.vtime_now) := by
  have hstep := step_vtime_now cfg sys ev
  have hrun := (flash_running_globals cfg now s ⟨p, some c⟩).1
  have hrun0 := (flash_running_globals cfg now s ⟨p, none⟩).1
  simp only [Option.isSome_some, true_and] at hrun
  simp only [Option.isSome_none, Bool.false_eq_true, false_and, if_false] at hrun0
  have hfw : vtime_forward sys.st.vtime_now (step cfg sys ev).st.vtime_now := by
    rcases hstep with h | ⟨i, now, t, -, -, -, hb, hv⟩
    · exact Or.inl h
    · exact Or.inr (by rw [hv]; exact hb)
  refine ⟨hstep, ⟨hrun, ?_⟩, hrun0, hfw, run_vtime_forward cfg evs sys, ?_, ?_⟩
  · rw [hrun]
    by_cases hb : time_before s.vtime_now p.scx.dsq_vtime = true
    · rw [if_pos hb]
      exact time_before_irrefl _
    · rw [if_neg hb]
      simpa using hb
  · intro hback
    rcases hfw with h | h
    · rw [h, time_before_irrefl] at hback
      cases hback
    · exact time_before_both _ _ h hback
  · intro hv hall
    rcases hstep with h | ⟨i, now, t, -, ht, -, hb, hnew⟩
    · exact le_of_eq h.symm
    · rw [hnew]
      have hmem : t ∈ sys.tasks := List.getElem?_mem ht
      exact le_of_lt (time_before_lt _ _ hv (hall t hmem) hb)

/-- Witness of C14 (amended): a task with vtime 5000 starts to run while the global
vtime is 1000. -/
theorem vtime_now_forward_witness :
    (step (default_config 1000)
        ⟨state_queued 1000 0, [⟨user_task 100 0 5000, some task_ctx_zero⟩], 0, none⟩
        (.running 0 10)).st.vtime_now = 5000 ∧
      (1000 : Nat) ≤ (step (default_config 1000)
        ⟨state_queued 1000 0, [⟨user_task 100 0 5000, some task_ctx_zero⟩], 0, none⟩
        (.running 0 10)).st.vtime_now :=
  ⟨by decide,
    (vtime_now_forward (default_config 1000)
      ⟨state_queued 1000 0, [⟨user_task 100 0 5000, some task_ctx_zero⟩], 0, none⟩
      (.running 0 10) [] 10 (state_queued 0 0) (user_task 100 0 0) task_ctx_zero).2.2.2.2.2.2
      (by decide) (by decide)⟩

/-! ## Sibling registration -/

theorem enable_sibling_cpu_no_ctx (cs : CpuStore) (input : domain_arg) (alloc_ok : Bool)
    (h : try_lookup_cpu_ctx cs input.cpu_id = none) :
    enable_sibling_cpu cs input alloc_ok = (cs, -ENOENT) := by
  unfold enable_sibling_cpu
  rw [h]

theorem enable_sibling_cpu_alloc_fail (cs : CpuStore) (input : domain_arg)
    (h : try_lookup_cpu_ctx cs input.cpu_id = some ⟨none⟩) :
    enable_sibling_cpu cs input false = (cs, -ENOMEM) := by
  unfold try_lookup_cpu_ctx at h
  unfold enable_sibling_cpu init_cpumask calloc_cpumask try_lookup_cpu_ctx
  simp [h, ENOMEM]

theorem enable_sibling_cpu_present (cs : CpuStore) (input : domain_arg) (alloc_ok : Bool)
    (m : List Nat) (h : try_lookup_cpu_ctx cs input.cpu_id = some ⟨some m⟩) :
    enable_sibling_cpu cs input alloc_ok =
      ({ cs with
          cpu_ctx_stor :=
            cs.cpu_ctx_stor.set input.cpu_id
              ⟨some (bpf_cpumask_set_cpu input.sibling_cpu_id m)⟩ }, 0) := by
  unfold try_lookup_cpu_ctx at h
  unfold enable_sibling_cpu init_cpumask try_lookup_cpu_ctx
  simp [h]

theorem enable_sibling_cpu_alloc_ok (cs : CpuStore) (input : domain_arg)
    (h : try_lookup_cpu_ctx cs input.cpu_id = some ⟨none⟩) :
    enable_sibling_cpu cs input true =
      ({ cpu_ctx_stor :=
            cs.cpu_ctx_stor.set input.cpu_id
              ⟨some (bpf_cpumask_set_cpu input.sibling_cpu_id [])⟩,
         created := cs.created + 1,
         released := cs.released }, 0) := by
  unfold try_lookup_cpu_ctx at h
  have hlt : input.cpu_id < cs.cpu_ctx_stor.length := (List.getElem?_eq_some.1 h).1
  unfold enable_sibling_cpu init_cpumask calloc_cpumask try_lookup_cpu_ctx
  simp [h, hlt, List.getElem?_set]

theorem mem_bpf_cpumask_set_cpu (b cpu : Nat) (mask : List Nat) :
    b ∈ bpf_cpumask_set_cpu cpu mask ↔ b = cpu ∨ b ∈ mask := by
  unfold bpf_cpumask_set_cpu
  split_ifs with h
  · constructor
    · intro hb
      exact Or.inr hb
    · rintro (rfl | hb)
      · exact h
      · exact hb
  · simp

theorem lookup_set_self (cs : CpuStore) (cpu : Nat) (c0 c1 : cpu_ctx) (created released : Nat)
    (h : try_lookup_cpu_ctx cs cpu = some c0) :
    try_lookup_cpu_ctx ⟨cs.cpu_ctx_stor.set cpu c1, created, released⟩ cpu = some c1 := by
  unfold try_lookup_cpu_ctx at h ⊢
  have hlt : cpu < cs.cpu_ctx_stor.length := (List.getElem?_eq_some.1 h).1
  simp [List.getElem?_set, hlt]

theorem lookup_set_other (cs : CpuStore) (cpu j : Nat) (c1 : cpu_ctx) (created released : Nat)
    (hj : j ≠ cpu) :
    try_lookup_cpu_ctx ⟨cs.cpu_ctx_stor.set cpu c1, created, released⟩ j =
      try_lookup_cpu_ctx cs j := by
  unfold try_lookup_cpu_ctx
  simp [List.getElem?_set, Ne.symm hj]

/-- C17. Sibling registration error handling: `enable_sibling_cpu` returns
`-ENOENT` and leaves the store unchanged when the CPU context of `cpu_id` cannot be
looked up; it returns `-ENOMEM` (a negative value) and leaves the store unchanged,
so no bit is set, when the CPU's mask is absent and cannot be allocated; otherwise
it returns 0, the CPU has a mask that contains `sibling_cpu_id` and every bit it
contained before, and the contexts of the other CPUs are unchanged. -/
theorem enable_sibling_cpu_error_handling (cs : CpuStore) (input : domain_arg)
    (alloc_ok : Bool) :
    (try_lookup_cpu_ctx cs input.cpu_id = none →
        enable_sibling_cpu cs input alloc_ok = (cs, -ENOENT)) ∧
      (try_lookup_cpu_ctx cs input.cpu_id = some ⟨none⟩ → alloc_ok = false →
        enable_sibling_cpu cs input alloc_ok = (cs, -ENOMEM)) ∧
      (-ENOENT < 0 ∧ -ENOMEM < 0) ∧
      (∀ cctx, try_lookup_cpu_ctx cs input.cpu_id = some cctx →
        (cctx.llc_mask.isSome = true ∨ alloc_ok = true) →
        (enable_sibling_cpu cs input alloc_ok).2 = 0 ∧
        ∃ m, try_lookup_cpu_ctx (enable_sibling_cpu cs input alloc_ok).1 input.cpu_id
            = some ⟨some m⟩ ∧
          input.sibling_cpu_id ∈ m ∧
          (∀ b ∈ cctx.llc_mask.getD [], b ∈ m) ∧
          ∀ j, j ≠ input.cpu_id →
            try_lookup_cpu_ctx (enable_sibling_cpu cs input alloc_ok).1 j =
              try_lookup_cpu_ctx cs j) := by
  refine ⟨enable_sibling_cpu_no_ctx cs input alloc_ok, ?_, by decide, ?_⟩
  · intro h hf
    rw [hf]
    exact enable_sibling_cpu_alloc_fail cs input h
  · intro cctx h hor
    obtain ⟨mask⟩ := cctx
    cases mask with
    | some m =>
      rw [enable_sibling_cpu_present cs input alloc_ok m h]
      refine ⟨rfl, _, lookup_set_self cs _ _ _ _ _ h, ?_, ?_, ?_⟩
      · exact (mem_bpf_cpumask_set_cpu _ _ _).2 (Or.inl rfl)
      · intro b hb
        exact (mem_bpf_cpumask_set_cpu _ _ _).2 (Or.inr hb)
      · intro j hj
        exact lookup_set_other cs _ j _ _ _ hj
    | none =>
      have hok : alloc_ok = true := by
        rcases hor with h1 | h1
        · cases h1
        · exact h1
      rw [hok, enable_sibling_cpu_alloc_ok cs input h]
      refine ⟨rfl, _, lookup_set_self cs _ _ _ _ _ h, ?_, ?_, ?_⟩
      · exact (mem_bpf_cpumask_set_cpu _ _ _).2 (Or.inl rfl)
      · intro b hb
        cases hb
      · intro j hj
        exact lookup_set_other cs _ j _ _ _ hj

/-- A store with two CPUs, neither of which has a mask yet. -/
def sample_cpu_store : CpuStore := ⟨[⟨none⟩, ⟨none⟩], 0, 0⟩

/-- Witness of C17: CPU 3 is registered as a sibling of CPU 1, whose mask is
allocated by the call. -/
theorem enable_sibling_cpu_error_handling_witness :
    (enable_sibling_cpu sample_cpu_store ⟨1, 3⟩ true).2 = 0 ∧
      (enable_sibling_cpu sample_cpu_store ⟨5, 3⟩ true) = (sample_cpu_store, -ENOENT) ∧
      (enable_sibling_cpu sample_cpu_store ⟨1, 3⟩ false) = (sample_cpu_store, -ENOMEM) :=
  ⟨((enable_sibling_cpu_error_handling sample_cpu_store ⟨1, 3⟩ true).2.2.2 ⟨none⟩ rfl
      (Or.inr rfl)).1,
    (enable_sibling_cpu_error_handling sample_cpu_store ⟨5, 3⟩ true).1 rfl,
    (enable_sibling_cpu_error_handling sample_cpu_store ⟨1, 3⟩ false).2.1 rfl rfl⟩

theorem enable_sibling_cpus_accumulate (cpu : Nat) (calls : List (Nat × Bool)) :
    ∀ (cs : CpuStore) (mask : Option (List Nat)),
      try_lookup_cpu_ctx cs cpu = some ⟨mask⟩ →
      (∀ e ∈ (enable_sibling_cpus cs cpu calls).2, e = 0) →
      ∃ mask1, try_lookup_cpu_ctx (enable_sibling_cpus cs cpu calls).1 cpu = some ⟨mask1⟩ ∧
        (∀ b, b ∈ mask1.getD [] ↔ b ∈ mask.getD [] ∨ b ∈ calls.map Prod.fst) ∧
        (mask1.isSome = true ↔ mask.isSome = true ∨ calls ≠ []) ∧
        (enable_sibling_cpus cs cpu calls).1.created =
          cs.created + (if mask.isSome = true ∨ calls = [] then 0 else 1) ∧
        (enable_sibling_cpus cs cpu calls).1.released = cs.released := by
  induction calls with
  | nil =>
    intro cs mask h _
    exact ⟨mask, h, by simp, by simp, by simp [enable_sibling_cpus], rfl⟩
  | cons call rest ih =>
    intro cs mask h hall
    obtain ⟨sib, alloc_ok⟩ := call
    have hfirst : (enable_sibling_cpu cs ⟨cpu, sib⟩ alloc_ok).2 = 0 :=
      hall _ (by simp [enable_sibling_cpus])
    have hrest : ∀ e ∈ (enable_sibling_cpus (enable_sibling_cpu cs ⟨cpu, sib⟩ alloc_ok).1
        cpu rest).2, e = 0 := by
      intro e he
      exact hall e (by simp [enable_sibling_cpus, he])
    have hfinal : (enable_sibling_cpus cs cpu ((sib, alloc_ok) :: rest)).1 =
        (enable_sibling_cpus (enable_sibling_cpu cs ⟨cpu, sib⟩ alloc_ok).1 cpu rest).1 := rfl
    rw [hfinal]
    cases mask with
    | some m =>
      have hcall := enable_sibling_cpu_present cs ⟨cpu, sib⟩ alloc_ok m h
      rw [hcall] at hrest ⊢
      obtain ⟨mask1, h1, hbits, hsome, hcr, hrel⟩ :=
        ih _ (some (bpf_cpumask_set_cpu sib m)) (lookup_set_self cs cpu _ _ _ _ h) hrest
      refine ⟨mask1, h1, ?_, ?_, ?_, hrel⟩
      · intro b
        rw [hbits b]
        simp only [Option.getD_some, mem_bpf_cpumask_set_cpu, List.map_cons, List.mem_cons]
        tauto
      · rw [hsome]
        simp
      · rw [hcr]
        simp
    | none =>
      have hok : alloc_ok = true := by
        cases alloc_ok with
        | true => rfl
        | false =>
          rw [enable_sibling_cpu_alloc_fail cs ⟨cpu, sib⟩ h] at hfirst
          have hne : (-ENOMEM : Int) ≠ 0 := by decide
          exact absurd hfirst hne
      subst hok
      have hcall := enable_sibling_cpu_alloc_ok cs ⟨cpu, sib⟩ h
      rw [hcall] at hrest ⊢
      obtain ⟨mask1, h1, hbits, hsome, hcr, hrel⟩ :=
        ih _ (some (bpf_cpumask_set_cpu sib [])) (lookup_set_self cs cpu _ _ _ _ h) hrest
      refine ⟨mask1, h1, ?_, ?_, ?_, hrel⟩
      · intro b
        rw [hbits b]
        simp only [Option.getD_some, Option.getD_none, mem_bpf_cpumask_set_cpu, List.map_cons,
          List.mem_cons]
        tauto
      · rw [hsome]
        simp
      · rw [hcr]
        simp

/-- C18. The sibling mask is allocated once and accumulates: for every sequence of
successful `enable_sibling_cpu` calls on one CPU (all return 0), whatever the
allocator would answer at each call, a call that finds a mask keeps it, creates
none and only adds its bit; after the sequence the mask contains exactly the bits
it had before and the sibling ids registered by the calls; exactly one mask was
created if the sequence is not empty and the mask was absent at the start, none
otherwise; and no mask was released. -/
theorem sibling_mask_accumulates (cs : CpuStore) (cpu : Nat) (calls : List (Nat × Bool))
    (mask : Option (List Nat)) (hctx : try_lookup_cpu_ctx cs cpu = some ⟨mask⟩)
    (hall : ∀ e ∈ (enable_sibling_cpus cs cpu calls).2, e = 0) :
    (∃ mask1, try_lookup_cpu_ctx (enable_sibling_cpus cs cpu calls).1 cpu = some ⟨mask1⟩ ∧
        (∀ b, b ∈ mask1.getD [] ↔ b ∈ mask.getD [] ∨ b ∈ calls.map Prod.fst) ∧
        (mask1.isSome = true ↔ mask.isSome = true ∨ calls ≠ [])) ∧
      (enable_sibling_cpus cs cpu calls).1.created =
        cs.created + (if mask.isSome = true ∨ calls = [] then 0 else 1) ∧
      (enable_sibling_cpus cs cpu calls).1.released = cs.released ∧
      (∀ (m : List Nat) (sib : Nat) (alloc_ok : Bool), mask = some m →
        (enable_sibling_cpu cs ⟨cpu, sib⟩ alloc_ok).2 = 0 ∧
        (enable_sibling_cpu cs ⟨cpu, sib⟩ alloc_ok).1.created = cs.created ∧
        try_lookup_cpu_ctx (enable_sibling_cpu cs ⟨cpu, sib⟩ alloc_ok).1 cpu =
          some ⟨some (bpf_cpumask_set_cpu sib m)⟩ ∧
        ∀ b ∈ m, b ∈ bpf_cpumask_set_cpu sib m) := by
  obtain ⟨mask1, h1, hbits, hsome, hcr, hrel⟩ :=
    enable_sibling_cpus_accumulate cpu calls cs mask hctx hall
  refine ⟨⟨mask1, h1, hbits, hsome⟩, hcr, hrel, ?_⟩
  intro m sib alloc_ok hm
  subst hm
  rw [enable_sibling_cpu_present cs ⟨cpu, sib⟩ alloc_ok m hctx]
  refine ⟨rfl, rfl, lookup_set_self cs cpu _ _ _ _ hctx, ?_⟩
  intro b hb
  exact (mem_bpf_cpumask_set_cpu _ _ _).2 (Or.inr hb)

/-- Witness of C18: three registrations on CPU 1; only the first one allocates,
also though the allocator would fail at the second. -/
theorem sibling_mask_accumulates_witness :
    (enable_sibling_cpus sample_cpu_store 1 [(3, true), (5, false), (3, true)]).2 = [0, 0, 0] ∧
      (enable_sibling_cpus sample_cpu_store 1 [(3, true), (5, false), (3, true)]).1.created
        = 1 ∧
      ∃ mask1, try_lookup_cpu_ctx
          (enable_sibling_cpus sample_cpu_store 1 [(3, true), (5, false), (3, true)]).1 1
          = some ⟨mask1⟩ ∧
        ∀ b, b ∈ mask1.getD [] ↔
          b ∈ (none : Option (List Nat)).getD [] ∨
            b ∈ [(3, true), (5, false), (3, true)].map Prod.fst :=
  ⟨by decide,
    (sibling_mask_accumulates sample_cpu_store 1 [(3, true), (5, false), (3, true)] none rfl
      (by decide)).2.1,
    match (sibling_mask_accumulates sample_cpu_store 1 [(3, true), (5, false), (3, true)] none
      rfl (by decide)).1 with
    | ⟨mask1, h1, hbits, _⟩ => ⟨mask1, h1, hbits⟩⟩

/-! ## Bounded compare-and-swap retries -/

theorem submit_task_ctx_msgs (msgs : List msg_task_ctx) (cpuc_ok reserve_ok : Bool)
    (pid cpu_id : Nat) :
    (submit_task_ctx msgs cpuc_ok reserve_ok pid cpu_id).1 = msgs ∨
      (submit_task_ctx msgs cpuc_ok reserve_ok pid cpu_id).1 = msgs ++ [⟨pid, cpu_id⟩] := by
  unfold submit_task_ctx
  split_ifs
  · exact Or.inl rfl
  · exact Or.inl rfl
  · exact Or.inr rfl

theorem proc_introspec_sched_n_loop_spec (other : Nat → Nat → Nat) (cpuc_ok reserve_ok : Bool)
    (pid cpu_id : Nat) (msgs : List msg_task_ctx) (remaining : Nat) :
    ∀ i cur_nr arg : Nat,
      i ≤ (proc_introspec_sched_n_loop other cpuc_ok reserve_ok pid cpu_id msgs
        remaining i cur_nr arg).attempts ∧
      (proc_introspec_sched_n_loop other cpuc_ok reserve_ok pid cpu_id msgs
        remaining i cur_nr arg).attempts ≤ i + remaining ∧
      ((proc_introspec_sched_n_loop other cpuc_ok reserve_ok pid cpu_id msgs
        remaining i cur_nr arg).swapped = none →
        (proc_introspec_sched_n_loop other cpuc_ok reserve_ok pid cpu_id msgs
          remaining i cur_nr arg).msgs = msgs) ∧
      (∀ v, (proc_introspec_sched_n_loop other cpuc_ok reserve_ok pid cpu_id msgs
        remaining i cur_nr arg).swapped = some v →
        0 < v ∧
        (proc_introspec_sched_n_loop other cpuc_ok reserve_ok pid cpu_id msgs
          remaining i cur_nr arg).arg = v - 1 ∧
        (proc_introspec_sched_n_loop other cpuc_ok reserve_ok pid cpu_id msgs
          remaining i cur_nr arg).msgs =
            (submit_task_ctx msgs cpuc_ok reserve_ok pid cpu_id).1) := by
  induction remaining with
  | zero =>
    intro i cur_nr arg
    simp [proc_introspec_sched_n_loop]
  | succ n ih =>
    intro i cur_nr arg
    simp only [proc_introspec_sched_n_loop]
    by_cases hpos : cur_nr > 0
    · rw [if_pos hpos]
      by_cases hcas : (sync_val_compare_and_swap (other i arg) cur_nr (cur_nr - 1)).2 = cur_nr
      · rw [if_pos hcas]
        refine ⟨by simp, by simp, by simp, ?_⟩
        intro v hv
        simp only [Option.some.injEq] at hv
        subst hv
        refine ⟨hpos, ?_, rfl⟩
        unfold sync_val_compare_and_swap at hcas ⊢
        split_ifs at hcas ⊢ with hm
        · rfl
        · exact absurd hcas hm
      · rw [if_neg hcas]
        obtain ⟨h1, h2, h3, h4⟩ := ih (i + 1)
          (sync_val_compare_and_swap (other i arg) cur_nr (cur_nr - 1)).2
          (sync_val_compare_and_swap (other i arg) cur_nr (cur_nr - 1)).1
        exact ⟨by omega, by omega, h3, h4⟩
    · rw [if_neg hpos]
      simp

theorem collect_sys_stat_idle_loop_spec (other_read other_cas : Nat → Nat → Nat) (now : Nat)
    (remaining : Nat) :
    ∀ i clk idle_total : Nat,
      i ≤ (collect_sys_stat_idle_loop other_read other_cas now remaining i clk
        idle_total).attempts ∧
      (collect_sys_stat_idle_loop other_read other_cas now remaining i clk
        idle_total).attempts ≤ i + remaining ∧
      ((collect_sys_stat_idle_loop other_read other_cas now remaining i clk
        idle_total).added = none →
        (collect_sys_stat_idle_loop other_read other_cas now remaining i clk
          idle_total).idle_total = idle_total) ∧
      (∀ old_clk, (collect_sys_stat_idle_loop other_read other_cas now remaining i clk
        idle_total).added = some old_clk →
        old_clk ≠ 0 ∧
        (collect_sys_stat_idle_loop other_read other_cas now remaining i clk
          idle_total).idle_total = add64 idle_total (sub64 now old_clk) ∧
        (collect_sys_stat_idle_loop other_read other_cas now remaining i clk
          idle_total).idle_start_clk = now) := by
  induction remaining with
  | zero =>
    intro i clk idle_total
    simp [collect_sys_stat_idle_loop]
  | succ n ih =>
    intro i clk idle_total
    simp only [collect_sys_stat_idle_loop]
    by_cases hz : other_read i clk = 0
    · rw [if_pos hz]
      simp
    · rw [if_neg hz]
      by_cases hcas : (sync_bool_compare_and_swap (other_cas i (other_read i clk))
          (other_read i clk) now).2 = true
      · rw [if_pos hcas]
        refine ⟨by simp, by simp, by simp, ?_⟩
        intro v hv
        simp only [Option.some.injEq] at hv
        subst hv
        refine ⟨hz, rfl, ?_⟩
        unfold sync_bool_compare_and_swap at hcas ⊢
        split_ifs at hcas ⊢ with hm
        · rfl
      · rw [if_neg hcas]
        obtain ⟨h1, h2, h3, h4⟩ := ih (i + 1)
          (sync_bool_compare_and_swap (other_cas i (other_read i clk))
            (other_read i clk) now).1 idle_total
        exact ⟨by omega, by omega, h3, h4⟩

/-- C19. Bounded compare-and-swap retry: whatever the other CPUs do to the shared
words between the atomic accesses, `proc_introspec_sched_n` returns after at most
`LAVD_MAX_RETRY` compare-and-swap attempts, does nothing when `intrspc.arg` is 0,
submits at most one message, and submits (calls `submit_task_ctx`) only after a
compare-and-swap that found a positive value `v` and left `v - 1` in `intrspc.arg`;
the idle-time loop of `collect_sys_stat` makes at most `LAVD_MAX_RETRY` attempts
for a CPU and adds `now - old_clk` to `idle_total` at most once, after a successful
compare-and-swap on a non-zero `old_clk`. -/
theorem bounded_cas_retry (max_retry : Nat) (other other_read other_cas : Nat → Nat → Nat)
    (cpuc_ok reserve_ok : Bool) (pid cpu_id : Nat) (msgs : List msg_task_ctx)
    (arg now clk idle_total : Nat) :
    ((proc_introspec_sched_n max_retry other cpuc_ok reserve_ok pid cpu_id msgs arg).attempts
        ≤ max_retry ∧
      proc_introspec_sched_n max_retry other cpuc_ok reserve_ok pid cpu_id msgs 0 =
        ⟨0, msgs, 0, none⟩ ∧
      ((proc_introspec_sched_n max_retry other cpuc_ok reserve_ok pid cpu_id msgs arg).msgs
          = msgs ∨
        (proc_introspec_sched_n max_retry other cpuc_ok reserve_ok pid cpu_id msgs arg).msgs
          = msgs ++ [⟨pid, cpu_id⟩]) ∧
      ((proc_introspec_sched_n max_retry other cpuc_ok reserve_ok pid cpu_id msgs arg).msgs
          ≠ msgs →
        ∃ v, (proc_introspec_sched_n max_retry other cpuc_ok reserve_ok pid cpu_id msgs
            arg).swapped = some v ∧ 0 < v ∧
          (proc_introspec_sched_n max_retry other cpuc_ok reserve_ok pid cpu_id msgs arg).arg
            = v - 1)) ∧
    ((collect_sys_stat_idle_loop other_read other_cas now max_retry 0 clk idle_total).attempts
        ≤ max_retry ∧
      ((collect_sys_stat_idle_loop other_read other_cas now max_retry 0 clk
          idle_total).idle_total = idle_total ∨
        ∃ old_clk, (collect_sys_stat_idle_loop other_read other_cas now max_retry 0 clk
            idle_total).added = some old_clk ∧ old_clk ≠ 0 ∧
          (collect_sys_stat_idle_loop other_read other_cas now max_retry 0 clk
            idle_total).idle_total = add64 idle_total (sub64 now old_clk))) := by
  obtain ⟨-, h2, h3, h4⟩ := proc_introspec_sched_n_loop_spec other cpuc_ok reserve_ok pid cpu_id
    msgs max_retry 0 arg arg
  obtain ⟨-, g2, g3, g4⟩ := collect_sys_stat_idle_loop_spec other_read other_cas now max_retry
    0 clk idle_total
  refine ⟨⟨?_, ?_, ?_, ?_⟩, ?_, ?_⟩
  · unfold proc_introspec_sched_n
    dsimp only
    omega
  · unfold proc_introspec_sched_n
    cases max_retry <;> simp [proc_introspec_sched_n_loop]
  · unfold proc_introspec_sched_n
    cases hsw : (proc_introspec_sched_n_loop other cpuc_ok reserve_ok pid cpu_id msgs
        max_retry 0 arg arg).swapped with
    | none => exact Or.inl (h3 hsw)
    | some v =>
      rw [(h4 v hsw).2.2]
      exact submit_task_ctx_msgs msgs cpuc_ok reserve_ok pid cpu_id
  · unfold proc_introspec_sched_n
    intro hne
    cases hsw : (proc_introspec_sched_n_loop other cpuc_ok reserve_ok pid cpu_id msgs
        max_retry 0 arg arg).swapped with
    | none => exact absurd (h3 hsw) hne
    | some v => exact ⟨v, rfl, (h4 v hsw).1, (h4 v hsw).2.1⟩
  · omega
  · cases had : (collect_sys_stat_idle_loop other_read other_cas now max_retry 0 clk
        idle_total).added with
    | none => exact Or.inl (g3 had)
    | some old_clk => exact Or.inr ⟨old_clk, rfl, (g4 old_clk had).1, (g4 old_clk had).2.1⟩

/-- Another CPU decrements the word once, before the first attempt. -/
def other_decrements_once (i v : Nat) : Nat := if i = 0 then v - 1 else v

/-- Witness of C19: with `intrspc.arg = 5` and another CPU that decrements the word
first, the first attempt fails, the second one swaps 4 for 3 and one message is
submitted. -/
theorem bounded_cas_retry_witness :
    proc_introspec_sched_n 3 other_decrements_once true true 42 1 [] 5 =
        ⟨3, [⟨42, 1⟩], 2, some 4⟩ ∧
      ∃ v, (proc_introspec_sched_n 3 other_decrements_once true true 42 1 [] 5).swapped
          = some v ∧ 0 < v ∧
        (proc_introspec_sched_n 3 other_decrements_once true true 42 1 [] 5).arg = v - 1 :=
  ⟨by decide,
    (bounded_cas_retry 3 other_decrements_once other_decrements_once other_decrements_once
      true true 42 1 [] 5 100 7 0).1.2.2.2 (by decide)⟩

/-! ## The moving average -/

theorem calc_avg_exact (old_val new_val : Nat) (ho : old_val < 18446744073709551616)
    (hn : new_val < 18446744073709551616) :
    sub64 old_val (old_val / 4) = old_val - old_val / 4 ∧
      old_val - old_val / 4 + new_val / 4 < 18446744073709551616 ∧
      calc_avg old_val new_val = old_val - old_val / 4 + new_val / 4 := by
  have e1 : sub64 old_val (old_val / 4) = old_val - old_val / 4 := by
    unfold sub64
    rw [Nat.mod_eq_of_lt ho,
      Nat.mod_eq_of_lt (by omega : old_val / 4 < 18446744073709551616)]
    have h : old_val + 18446744073709551616 - old_val / 4 =
        (old_val - old_val / 4) + 18446744073709551616 := by
      omega
    rw [h, Nat.add_mod_right]
    exact Nat.mod_eq_of_lt (by omega)
  have e2 : old_val - old_val / 4 + new_val / 4 < 18446744073709551616 := by omega
  refine ⟨e1, e2, ?_⟩
  unfold calc_avg
  rw [e1]
  unfold add64
  exact Nat.mod_eq_of_lt e2

/-- C24. EWMA blend: for all `u64` values `old_val` and `new_val`, `calc_avg`
returns `old_val - floor(old_val / 4) + floor(new_val / 4)`, and this differs from
the exact rational `(3 * old_val + new_val) / 4` by at most `3 / 4`: four times the
result is within 3 of `3 * old_val + new_val`. -/
theorem calc_avg_blend (old_val new_val : Nat) (ho : old_val < 18446744073709551616)
    (hn : new_val < 18446744073709551616) :
    calc_avg old_val new_val = old_val - old_val / 4 + new_val / 4 ∧
      4 * calc_avg old_val new_val ≤ 3 * old_val + new_val + 3 ∧
      3 * old_val + new_val ≤ 4 * calc_avg old_val new_val + 3 ∧
      |(calc_avg old_val new_val : ℚ) - (3 * (old_val : ℚ) + (new_val : ℚ)) / 4| ≤ 3 / 4 := by
  obtain ⟨-, -, h⟩ := calc_avg_exact old_val new_val ho hn
  have hup : 4 * calc_avg old_val new_val ≤ 3 * old_val + new_val + 3 := by
    rw [h]
    omega
  have hlo : 3 * old_val + new_val ≤ 4 * calc_avg old_val new_val + 3 := by
    rw [h]
    omega
  refine ⟨h, hup, hlo, ?_⟩
  have hupq : (4 : ℚ) * (calc_avg old_val new_val : ℚ) ≤ 3 * old_val + new_val + 3 := by
    exact_mod_cast hup
  have hloq : (3 : ℚ) * old_val + new_val ≤ 4 * (calc_avg old_val new_val : ℚ) + 3 := by
    exact_mod_cast hlo
  rw [abs_le]
  constructor <;> linarith

/-- Witness of C24: old average 1001, new sample 7. -/
theorem calc_avg_blend_witness :
    calc_avg 1001 7 = 752 ∧ calc_avg 1001 7 = 1001 - 1001 / 4 + 7 / 4 :=
  ⟨by decide, (calc_avg_blend 1001 7 (by decide) (by decide)).1⟩

/-- C25. `calc_avg` stays between its arguments: for all `u64` values `old_val`
and `new_val`, `min(old_val, new_val) ≤ calc_avg(old_val, new_val) ≤
max(old_val, new_val)`; the subtraction and the sum inside `calc_avg` do not wrap;
and `calc_avg(x, x) = x` for every `u64` value `x`. -/
theorem calc_avg_between (old_val new_val : Nat) (ho : old_val < 18446744073709551616)
    (hn : new_val < 18446744073709551616) :
    min old_val new_val ≤ calc_avg old_val new_val ∧
      calc_avg old_val new_val ≤ max old_val new_val ∧
      sub64 old_val (old_val / 4) = old_val - old_val / 4 ∧
      sub64 old_val (old_val / 4) + new_val / 4 < 18446744073709551616 ∧
      calc_avg old_val old_val = old_val := by
  obtain ⟨e1, e2, h⟩ := calc_avg_exact old_val new_val ho hn
  obtain ⟨-, -, hx⟩ := calc_avg_exact old_val old_val ho ho
  refine ⟨?_, ?_, e1, by rw [e1]; exact e2, ?_⟩
  · rw [h]
    omega
  · rw [h]
    omega
  · rw [hx]
    omega

/-- Witness of C25: the largest `u64` value as old average and as new sample. -/
theorem calc_avg_between_witness :
    calc_avg 18446744073709551615 18446744073709551615 = 18446744073709551615 ∧
      min 10 2000 ≤ calc_avg 10 2000 ∧ calc_avg 10 2000 ≤ max 10 2000 :=
  ⟨(calc_avg_between 18446744073709551615 18446744073709551615 (by decide) (by decide)).2.2.2.2,
    (calc_avg_between 10 2000 (by decide) (by decide)).1,
    (calc_avg_between 10 2000 (by decide) (by decide)).2.1⟩

/-! ## Virtual time: idempotence -/

theorem task_vtime_of_not_before (cfg : Config) (vtime_now : Nat) (p : task_struct)
    (tctx : task_ctx)
    (h : time_before p.scx.dsq_vtime (sub64 vtime_now (task_lag cfg p tctx)) = false) :
    task_vtime cfg vtime_now p tctx = (p, tctx, tctx.deadline) := by
  unfold task_vtime
  dsimp only
  rw [h]
  rfl

/-- C26. `task_vtime` is idempotent: for every task state and every `vtime_now`, a
second call right after the first (same `vtime_now`, same weight) returns the same
key and leaves the task and its context, so `dsq_vtime` and `deadline`, exactly as
the first call left them; and when the task's vtime is not before
`vtime_now - task_lag(p)`, a call changes neither the task nor its context and
returns the stored deadline. -/
theorem task_vtime_idempotent (cfg : Config) (vtime_now : Nat) (p : task_struct)
    (tctx : task_ctx) :
    task_vtime cfg vtime_now (task_vtime cfg vtime_now p tctx).1
        (task_vtime cfg vtime_now p tctx).2.1 = task_vtime cfg vtime_now p tctx ∧
      (task_vtime cfg vtime_now p tctx).2.2 = (task_vtime cfg vtime_now p tctx).2.1.deadline ∧
      (time_before p.scx.dsq_vtime (sub64 vtime_now (task_lag cfg p tctx)) = false →
        task_vtime cfg vtime_now p tctx = (p, tctx, tctx.deadline)) := by
  have hkey : (task_vtime cfg vtime_now p tctx).2.2 =
      (task_vtime cfg vtime_now p tctx).2.1.deadline := by
    unfold task_vtime
    dsimp only
    split_ifs <;> rfl
  have hnb : time_before (task_vtime cfg vtime_now p tctx).1.scx.dsq_vtime
      (sub64 vtime_now (task_lag cfg (task_vtime cfg vtime_now p tctx).1
        (task_vtime cfg vtime_now p tctx).2.1)) = false := by
    rw [task_lag_after_task_vtime, task_vtime_dsq_vtime]
    by_cases hb : time_before p.scx.dsq_vtime (sub64 vtime_now (task_lag cfg p tctx)) = true
    · rw [if_pos hb]
      exact time_before_irrefl _
    · rw [if_neg hb]
      simpa using hb
  refine ⟨?_, hkey, task_vtime_of_not_before cfg vtime_now p tctx⟩
  rw [task_vtime_of_not_before cfg vtime_now _ _ hnb, ← hkey]

/-- Witness of C26: a task whose vtime is within the allowed lag. -/
theorem task_vtime_idempotent_witness :
    time_before (user_task 100 0 40000000).scx.dsq_vtime
        (sub64 50000000 (task_lag (default_config 1000) (user_task 100 0 40000000)
          task_ctx_zero)) = false ∧
      task_vtime (default_config 1000) 50000000 (user_task 100 0 40000000) task_ctx_zero =
        (user_task 100 0 40000000, task_ctx_zero, task_ctx_zero.deadline) :=
  ⟨by decide,
    (task_vtime_idempotent (default_config 1000) 50000000 (user_task 100 0 40000000)
      task_ctx_zero).2.2 (by decide)⟩

/-! ## Stopping: the yield-rate window -/

/-- C21. Yield-rate window: in `flash_stopping`, with `delta = now - nvcsw_ts`, if
`(s64)delta > NSEC_PER_SEC` then `avg_nvcsw` becomes
`clamp(calc_avg(old avg_nvcsw, nvcsw * NSEC_PER_SEC / delta), 0, 128)`, where
`nvcsw` includes the increment of this call, `nvcsw` is reset to 0 and `nvcsw_ts`
is set to `now`; otherwise, also when `delta` is exactly one second, `avg_nvcsw`
and `nvcsw_ts` are unchanged and `nvcsw` keeps the counted value. The operations
are those of `u64`; when `nvcsw_ts ≤ now`, the difference is below `2^63` and the
product does not wrap, they are the plain ones. -/
theorem flash_stopping_window (now : Nat) (p : task_struct) (tctx : task_ctx)
    (runnable : Bool) :
    ∃ c, (flash_stopping now ⟨p, some tctx⟩ runnable).stor = some c ∧
      (window_elapsed now tctx →
        c.avg_nvcsw = CLAMP (calc_avg tctx.avg_nvcsw
          (mul64 (stopping_nvcsw p tctx) NSEC_PER_SEC / sub64 now tctx.nvcsw_ts)) 0 128 ∧
        c.nvcsw = 0 ∧ c.nvcsw_ts = now) ∧
      (¬ window_elapsed now tctx →
        c.avg_nvcsw = tctx.avg_nvcsw ∧ c.nvcsw_ts = tctx.nvcsw_ts ∧
        c.nvcsw = stopping_nvcsw p tctx) ∧
      stopping_nvcsw p tctx = (if p.scx.slice > 0 then add64 tctx.nvcsw 1 else tctx.nvcsw) ∧
      (window_elapsed now tctx ↔ toS64 (sub64 now tctx.nvcsw_ts) > 1000000000) ∧
      (sub64 now tctx.nvcsw_ts = 1000000000 → ¬ window_elapsed now tctx) ∧
      (tctx.nvcsw_ts ≤ now → now < 18446744073709551616 →
        now - tctx.nvcsw_ts < 9223372036854775808 →
        (window_elapsed now tctx ↔ now - tctx.nvcsw_ts > 1000000000) ∧
        (stopping_nvcsw p tctx * 1000000000 < 18446744073709551616 →
          mul64 (stopping_nvcsw p tctx) NSEC_PER_SEC / sub64 now tctx.nvcsw_ts =
            stopping_nvcsw p tctx * 1000000000 / (now - tctx.nvcsw_ts))) := by
  obtain ⟨c, hc, hn, hts, havg⟩ := flash_stopping_window_fields now p tctx runnable
  refine ⟨c, hc, ?_, ?_, rfl, ?_, ?_, ?_⟩
  · intro hw
    rw [hn, hts, havg, if_pos hw, if_pos hw, if_pos hw]
    exact ⟨rfl, rfl, rfl⟩
  · intro hw
    rw [hn, hts, havg, if_neg hw, if_neg hw, if_neg hw]
    exact ⟨rfl, rfl, rfl⟩
  · unfold window_elapsed NSEC_PER_SEC
    exact Iff.rfl
  · intro hd
    unfold window_elapsed NSEC_PER_SEC
    rw [hd]
    decide
  · intro h1 h2 h3
    have hsub : sub64 now tctx.nvcsw_ts = now - tctx.nvcsw_ts := by
      unfold sub64
      omega
    refine ⟨?_, ?_⟩
    · unfold window_elapsed NSEC_PER_SEC
      rw [hsub]
      unfold toS64
      split_ifs <;> omega
    · intro hm
      rw [hsub]
      unfold mul64 NSEC_PER_SEC
      rw [Nat.mod_eq_of_lt hm]

/-- Witness of C21: a stop exactly one second after the window was reset does not
refresh the window. -/
theorem flash_stopping_window_witness :
    ∃ c, (flash_stopping 1000000000
        ⟨user_task 100 5 0, some { task_ctx_zero with nvcsw := 7, avg_nvcsw := 3 }⟩ true).stor
        = some c ∧
      c.avg_nvcsw = 3 ∧ c.nvcsw_ts = 0 ∧ c.nvcsw = add64 7 1 :=
  match flash_stopping_window 1000000000 (user_task 100 5 0)
    { task_ctx_zero with nvcsw := 7, avg_nvcsw := 3 } true with
  | ⟨c, hc, _, h, _, _, _, _⟩ => ⟨c, hc, h (by decide)⟩

/-! ## Enabling a task -/

/-- C22. Enable seeds the context or fails: `flash_enable` always sets the task's
`dsq_vtime` to `vtime_now` and changes nothing else in the task. If the task has a
context, the call stores `avg_runtime = SLICE_MIN`, `nvcsw_ts = now` and
`deadline = vtime_now + task_deadline(p)` (a `u64` sum, the plain sum when it does
not wrap), leaves `nvcsw`, `avg_nvcsw`, `sum_runtime`, `last_run_at` and
`lock_boost` unchanged and leaves the global state, so the error report, unchanged.
If the context is missing, the call reports the error "incorrectly initialized
task", changes nothing else in the global state and the task still has no context.
So the error is reported if and only if the context is missing. -/
theorem flash_enable_seeds_or_fails (cfg : Config) (now : Nat) (s : State) (p : task_struct) :
    (∀ stor, (flash_enable cfg now s ⟨p, stor⟩).2.p =
        { p with scx := { p.scx with dsq_vtime := s.vtime_now } }) ∧
      (∀ c, (flash_enable cfg now s ⟨p, some c⟩).1 = s ∧
        ∃ c1, (flash_enable cfg now s ⟨p, some c⟩).2.stor = some c1 ∧
          c1.avg_runtime = SLICE_MIN cfg ∧ c1.nvcsw_ts = now ∧
          c1.deadline = add64 s.vtime_now
            (task_deadline (flash_enable cfg now s ⟨p, some c⟩).2.p c1) ∧
          (s.vtime_now + task_deadline (flash_enable cfg now s ⟨p, some c⟩).2.p c1
              < 18446744073709551616 →
            c1.deadline = s.vtime_now +
              task_deadline (flash_enable cfg now s ⟨p, some c⟩).2.p c1) ∧
          c1.nvcsw = c.nvcsw ∧ c1.avg_nvcsw = c.avg_nvcsw ∧ c1.sum_runtime = c.sum_runtime ∧
          c1.last_run_at = c.last_run_at ∧ c1.lock_boost = c.lock_boost) ∧
      ((flash_enable cfg now s ⟨p, none⟩).1 =
          { s with error := some "incorrectly initialized task: %d (%s)" } ∧
        (flash_enable cfg now s ⟨p, none⟩).2.stor = none) ∧
      (∀ stor, (flash_enable cfg now s ⟨p, stor⟩).1 ≠ s → stor = none) := by
  refine ⟨?_, ?_, ⟨rfl, rfl⟩, ?_⟩
  · intro stor
    cases stor <;> rfl
  · intro c
    refine ⟨rfl, ?_⟩
    have hd : ∀ c1 : task_ctx, (flash_enable cfg now s ⟨p, some c⟩).2.stor = some c1 →
        c1.deadline = add64 s.vtime_now
          (task_deadline (flash_enable cfg now s ⟨p, some c⟩).2.p c1) := by
      intro c1 h1
      simp only [flash_enable, try_lookup_task_ctx, Option.some.injEq] at h1
      subst h1
      show add64 s.vtime_now _ = add64 s.vtime_now _
      congr 1
    refine ⟨_, rfl, rfl, rfl, hd _ rfl, ?_, rfl, rfl, rfl, rfl, rfl⟩
    intro hlt
    rw [hd _ rfl]
    unfold add64
    exact Nat.mod_eq_of_lt hlt
  · intro stor hne
    cases stor with
    | none => rfl
    | some c => exact absurd rfl hne

/-- The context `flash_enable` leaves at time 5 with `vtime_now = 1000`, a 1000 Hz
tick and a fresh context. -/
def enabled_ctx : task_ctx :=
  { task_ctx_zero with nvcsw_ts := 5, avg_runtime := 1000000, deadline := 68267666 }

/-- Witness of C22: a task with a context is enabled; the global state is
unchanged and the deadline is the plain sum. -/
theorem flash_enable_seeds_or_fails_witness :
    (flash_enable (default_config 1000) 5 (state_queued 1000 0)
        ⟨user_task 100 0 0, some task_ctx_zero⟩).1 = state_queued 1000 0 ∧
      (flash_enable (default_config 1000) 5 (state_queued 1000 0)
        ⟨user_task 100 0 0, none⟩).1.error = some "incorrectly initialized task: %d (%s)" ∧
      ∃ c1, (flash_enable (default_config 1000) 5 (state_queued 1000 0)
          ⟨user_task 100 0 0, some task_ctx_zero⟩).2.stor = some c1 ∧
        c1.deadline = (state_queued 1000 0).vtime_now +
          task_deadline (flash_enable (default_config 1000) 5 (state_queued 1000 0)
            ⟨user_task 100 0 0, some task_ctx_zero⟩).2.p c1 :=
  ⟨((flash_enable_seeds_or_fails (default_config 1000) 5 (state_queued 1000 0)
      (user_task 100 0 0)).2.1 task_ctx_zero).1,
    by decide,
    by
      obtain ⟨c1, hc, -, -, -, h, -⟩ :=
        ((flash_enable_seeds_or_fails (default_config 1000) 5 (state_queued 1000 0)
          (user_task 100 0 0)).2.1 task_ctx_zero).2
      have e : some c1 = some enabled_ctx := hc.symm.trans (by decide)
      cases e
      exact ⟨_, hc, h (by decide)⟩⟩

/-! ## Dispatch -/

theorem set_same (l : List Task) (i : Nat) (t : Task) (h : l[i]? = some t) :
    l.set i t = l := by
  apply List.ext_getElem?
  intro j
  by_cases hij : i = j
  · subst hij
    rw [set_lookup l i i t t h, if_pos rfl, h]
  · rw [List.getElem?_set_ne hij]

theorem flash_dispatch_nonempty (cfg : Config) (s : State) (cpu : Nat) (prev : Option Task)
    (e : dsq_entry) (rest : List dsq_entry) (h : s.shared_dsq = e :: rest) :
    flash_dispatch cfg s cpu prev =
      ({ s with shared_dsq := rest, local_dsq := dsq_insert_local s.local_dsq e }, prev) := by
  unfold flash_dispatch
  rw [h]

theorem nr_tasks_waiting_empty (s : State) (h : s.shared_dsq = []) : nr_tasks_waiting s = 1 := by
  unfold nr_tasks_waiting scx_bpf_dsq_nr_queued
  rw [h]
  rfl

/-- A task that is still queued (`SCX_TASK_QUEUED` set), has used up its slice and
has no context. -/
def queued_task_no_ctx : Task := ⟨⟨1, 0, 4, 0, ⟨100, 0, 0, SCX_TASK_QUEUED⟩⟩, none⟩

/-- C23, as stated, fails: with an empty shared queue and a previous task that has
`SCX_TASK_QUEUED` set but no context, `flash_dispatch` leaves the task as it is,
with slice 0, while `clamp(scale_up_fair(slice_max / 1), SLICE_MIN, slice_max)` is
at least `SLICE_MIN = 1000000` whatever context the weight is read from. -/
theorem flash_dispatch_refill_counterexample :
    (state_queued 0 0).shared_dsq = [] ∧
      queued_task_no_ctx.p.scx.flags &&& SCX_TASK_QUEUED ≠ 0 ∧
      flash_dispatch (default_config 1000) (state_queued 0 0) 0 (some queued_task_no_ctx) =
        (state_queued 0 0, some queued_task_no_ctx) ∧
      queued_task_no_ctx.p.scx.slice = 0 ∧
      ∀ c : task_ctx,
        CLAMP (scale_up_fair queued_task_no_ctx.p c ((default_config 1000).slice_max / 1))
          (SLICE_MIN (default_config 1000)) (default_config 1000).slice_max ≠ 0 := by
  refine ⟨by decide, by decide, by decide, by decide, ?_⟩
  intro c
  have h := CLAMP_ge_lo
    (scale_up_fair queued_task_no_ctx.p c ((default_config 1000).slice_max / 1))
    (SLICE_MIN (default_config 1000)) (default_config 1000).slice_max (by decide)
  have hs : SLICE_MIN (default_config 1000) = 1000000 := by decide
  omega

theorem step_dispatch_tasks (cfg : Config) (sys : System) (cpu : Nat) (prev : Option Nat)
    (h : sys.st.shared_dsq ≠ []) :
    (step cfg sys (Event.dispatch cpu prev)).tasks = sys.tasks := by
  obtain ⟨e, rest, hq⟩ := List.exists_cons_of_ne_nil h
  simp only [step]
  split
  · next i =>
    split
    · next t ht =>
      show sys.tasks.set i ((flash_dispatch cfg sys.st cpu (some t)).2.getD t) = sys.tasks
      rw [flash_dispatch_nonempty cfg sys.st cpu (some t) e rest hq]
      exact set_same sys.tasks i t ht
    · rfl
  · rfl

/-- C23, amended. For every CPU and every previous task: when the shared queue is
not empty, `flash_dispatch` moves its head to the local queue and changes no task,
so no slice; when the shared queue is empty and the previous task exists with
`SCX_TASK_QUEUED` set, it changes nothing in the global state and applies
`task_refill_slice` to that task: if the task has a context its slice becomes
`clamp(scale_up_fair(slice_max / 1), SLICE_MIN, slice_max)` and nothing else in the
task changes, if it has no context the task is unchanged; in the remaining cases
it changes nothing. -/
theorem flash_dispatch_cases (cfg : Config) (s : State) (cpu : Nat) (prev : Option Task)
    (sys : System) (prev_index : Option Nat) :
    (∀ e rest, s.shared_dsq = e :: rest →
        flash_dispatch cfg s cpu prev =
          ({ s with shared_dsq := rest, local_dsq := dsq_insert_local s.local_dsq e }, prev)) ∧
      (sys.st.shared_dsq ≠ [] →
        (step cfg sys (Event.dispatch cpu prev_index)).tasks = sys.tasks) ∧
      (∀ t, s.shared_dsq = [] → prev = some t → t.p.scx.flags &&& SCX_TASK_QUEUED ≠ 0 →
        flash_dispatch cfg s cpu prev = (s, some (task_refill_slice cfg s t)) ∧
        (∀ c, t.stor = some c →
          (task_refill_slice cfg s t).p.scx.slice =
              CLAMP (scale_up_fair t.p c (cfg.slice_max / 1)) (SLICE_MIN cfg) cfg.slice_max ∧
            (task_refill_slice cfg s t).stor = t.stor ∧
            (task_refill_slice cfg s t).p.scx.weight = t.p.scx.weight ∧
            (task_refill_slice cfg s t).p.scx.dsq_vtime = t.p.scx.dsq_vtime ∧
            (task_refill_slice cfg s t).p.scx.flags = t.p.scx.flags ∧
            (task_refill_slice cfg s t).p.pid = t.p.pid ∧
            (task_refill_slice cfg s t).p.flags = t.p.flags ∧
            (task_refill_slice cfg s t).p.nr_cpus_allowed = t.p.nr_cpus_allowed ∧
            (task_refill_slice cfg s t).p.cpu = t.p.cpu) ∧
        (t.stor = none → task_refill_slice cfg s t = t)) ∧
      (s.shared_dsq = [] →
        (prev = none ∨ ∃ t, prev = some t ∧ t.p.scx.flags &&& SCX_TASK_QUEUED = 0) →
        flash_dispatch cfg s cpu prev = (s, prev)) := by
  refine ⟨flash_dispatch_nonempty cfg s cpu prev, step_dispatch_tasks cfg sys cpu prev_index,
    ?_, ?_⟩
  · intro t hq hp hf
    refine ⟨?_, ?_, ?_⟩
    · unfold flash_dispatch
      rw [hq, hp]
      simp only [if_pos hf]
    · intro c hc
      obtain ⟨p, stor⟩ := t
      simp only at hc
      subst hc
      have hs := task_refill_slice_some cfg s p c
      rw [nr_tasks_waiting_empty s hq] at hs
      exact ⟨hs, rfl, rfl, rfl, rfl, rfl, rfl, rfl, rfl⟩
    · intro hn
      unfold task_refill_slice try_lookup_task_ctx
      rw [hn]
  · intro hq hcase
    unfold flash_dispatch
    rw [hq]
    rcases hcase with hp | ⟨t, hp, hf⟩
    · rw [hp]
    · rw [hp]
      have hnf : ¬ (t.p.scx.flags &&& SCX_TASK_QUEUED ≠ 0) := by
        rw [hf]
        simp
      simp only [if_neg hnf]

/-- A task that is still queued and has a context, with weight 100. -/
def queued_task : Task := ⟨⟨1, 0, 4, 0, ⟨100, 0, 0, SCX_TASK_QUEUED⟩⟩, some task_ctx_zero⟩

/-- Witness of C23 (amended): with an empty shared queue, the slice of the
previous task, which has a context, is refilled to `slice_max`. -/
theorem flash_dispatch_cases_witness :
    flash_dispatch (default_config 1000) (state_queued 0 0) 0 (some queued_task) =
        (state_queued 0 0, some (task_refill_slice (default_config 1000) (state_queued 0 0)
          queued_task)) ∧
      (task_refill_slice (default_config 1000) (state_queued 0 0) queued_task).p.scx.slice
        = 20000000 :=
  ⟨((flash_dispatch_cases (default_config 1000) (state_queued 0 0) 0 (some queued_task)
      sample_system none).2.2.1 queued_task rfl rfl (by decide)).1,
    by decide⟩

/-! ## Which calls write a deadline -/

/-- What one call of the policy makes of the task at position `j`, given the
global state `st` in which the call is made. -/
def event_on_task (cfg : Config) (st : State) (j : Nat) (t : Task) : Event → Task
  | .fsync i => if i = j then (kprobe_vfs_fsync_range t).1 else t
  | .select_cpu _ _ _ => t
  | .enqueue i enq_flags => if i = j then (flash_enqueue cfg st t enq_flags).2 else t
  | .dispatch cpu prev =>
    if prev = some j then (flash_dispatch cfg st cpu (some t)).2.getD t else t
  | .running i now => if i = j then (flash_running cfg now st t).2 else t
  | .stopping i now r => if i = j then flash_stopping now t r else t
  | .runnable i enq_flags => if i = j then flash_runnable t enq_flags else t
  | .enable i now => if i = j then (flash_enable cfg now st t).2 else t
  | .init_task i alloc_ok => if i = j then (flash_init_task t alloc_ok).1 else t
  | .init _ _ => t
  | .exit _ => t

theorem set_lookup_at (l : List Task) (i j : Nat) (a : Task → Task) (ti t : Task)
    (hi : l[i]? = some ti) (h : l[j]? = some t) :
    (l.set i (a ti))[j]? = some (if i = j then a t else t) := by
  rw [set_lookup l i j (a ti) t h]
  by_cases hij : i = j
  · subst hij
    rw [h] at hi
    cases hi
    rfl
  · simp only [if_neg hij]

theorem lookup_ne_of_none (l : List Task) (i j : Nat) (t : Task) (hi : l[i]? = none)
    (h : l[j]? = some t) : i ≠ j := by
  intro hij
  subst hij
  rw [h] at hi
  cases hi

theorem step_task_eq (cfg : Config) (sys : System) (ev : Event) (j : Nat) (t : Task)
    (h : sys.tasks[j]? = some t) :
    (step cfg sys ev).tasks[j]? = some (event_on_task cfg sys.st j t ev) := by
  cases ev with
  | fsync i =>
    simp only [step, event_on_task]
    split
    · next ti hi =>
      exact set_lookup_at sys.tasks i j (fun x => (kprobe_vfs_fsync_range x).1) ti t hi h
    · next hi => rw [h, if_neg (lookup_ne_of_none _ i j t hi h)]
  | select_cpu i cpu is_idle =>
    simp only [step, event_on_task]
    split <;> exact h
  | enqueue i enq_flags =>
    simp only [step, event_on_task]
    split
    · next ti hi =>
      exact set_lookup_at sys.tasks i j (fun x => (flash_enqueue cfg sys.st x enq_flags).2)
        ti t hi h
    · next hi => rw [h, if_neg (lookup_ne_of_none _ i j t hi h)]
  | dispatch cpu prev =>
    simp only [step, event_on_task]
    split
    · next i =>
      split
      · next ti hi =>
        have hs := set_lookup_at sys.tasks i j
          (fun x => (flash_dispatch cfg sys.st cpu (some x)).2.getD x) ti t hi h
        simp only [Option.some.injEq]
        exact hs
      · next hi =>
        have hne := lookup_ne_of_none _ i j t hi h
        simp only [Option.some.injEq, if_neg hne]
        exact h
    · simp only [if_neg (by simp : ¬ (none : Option Nat) = some j)]
      exact h
  | running i now =>
    simp only [step, event_on_task]
    split
    · next ti hi =>
      exact set_lookup_at sys.tasks i j (fun x => (flash_running cfg now sys.st x).2) ti t hi h
    · next hi => rw [h, if_neg (lookup_ne_of_none _ i j t hi h)]
  | stopping i now r =>
    simp only [step, event_on_task]
    split
    · next ti hi =>
      exact set_lookup_at sys.tasks i j (fun x => flash_stopping now x r) ti t hi h
    · next hi => rw [h, if_neg (lookup_ne_of_none _ i j t hi h)]
  | runnable i enq_flags =>
    simp only [step, event_on_task]
    split
    · next ti hi =>
      exact set_lookup_at sys.tasks i j (fun x => flash_runnable x enq_flags) ti t hi h
    · next hi => rw [h, if_neg (lookup_ne_of_none _ i j t hi h)]
  | enable i now =>
    simp only [step, event_on_task]
    split
    · next ti hi =>
      exact set_lookup_at sys.tasks i j (fun x => (flash_enable cfg now sys.st x).2) ti t hi h
    · next hi => rw [h, if_neg (lookup_ne_of_none _ i j t hi h)]
  | init_task i alloc_ok =>
    simp only [step, event_on_task]
    split
    · next ti hi =>
      exact set_lookup_at sys.tasks i j (fun x => (flash_init_task x alloc_ok).1) ti t hi h
    · next hi => rw [h, if_neg (lookup_ne_of_none _ i j t hi h)]
  | init nr err =>
    simp only [step, flash_init, event_on_task]
    split_ifs <;> exact h
  | exit ei => exact h

/-- The calls that write the deadline of the task at position `j`, which has the
context `c`: `flash_stopping` on it, `flash_enable` on it, and `flash_enqueue` on it
when the kernel-thread fast path is not taken and `task_vtime` re-bases the task
(its vtime is before `vtime_now - task_lag`). -/
def writes_deadline (cfg : Config) (st : State) (j : Nat) (t : Task) (c : task_ctx)
    (ev : Event) : Prop :=
  (∃ now r, ev = Event.stopping j now r) ∨
    (∃ now, ev = Event.enable j now) ∨
    (∃ enq_flags, ev = Event.enqueue j enq_flags ∧ kthread_fast_path cfg t = false ∧
      time_before t.p.scx.dsq_vtime (sub64 st.vtime_now (task_lag cfg t.p c)) = true)

theorem task_vtime_deadline (cfg : Config) (vtime_now : Nat) (p : task_struct)
    (tctx : task_ctx) :
    (task_vtime cfg vtime_now p tctx).2.1.deadline =
      (if time_before p.scx.dsq_vtime (sub64 vtime_now (task_lag cfg p tctx)) = true then
        add64 (sub64 vtime_now (task_lag cfg p tctx)) (task_deadline p tctx)
      else tctx.deadline) := by
  unfold task_vtime
  dsimp only
  split_ifs
  · exact congrArg (add64 (sub64 vtime_now (task_lag cfg p tctx)))
      (task_deadline_congr _ p tctx tctx (by simp [task_weight]) rfl rfl)
  · rfl

theorem flash_enqueue_task (cfg : Config) (s : State) (p : task_struct) (c : task_ctx)
    (enq_flags : Nat) :
    (flash_enqueue cfg s ⟨p, some c⟩ enq_flags).2 =
      (if kthread_fast_path cfg ⟨p, some c⟩ = true then ⟨p, some c⟩
        else ⟨(task_vtime cfg s.vtime_now p c).1, some (task_vtime cfg s.vtime_now p c).2.1⟩) := by
  unfold flash_enqueue kthread_fast_path try_lookup_task_ctx
  split_ifs <;> rfl

theorem flash_enable_deadline (cfg : Config) (now : Nat) (s : State) (p : task_struct)
    (c : task_ctx) :
    ∃ c1, (flash_enable cfg now s ⟨p, some c⟩).2.stor = some c1 ∧
      c1.deadline = add64 s.vtime_now (task_deadline p { c with avg_runtime := SLICE_MIN cfg }) := by
  refine ⟨_, rfl, ?_⟩
  exact congrArg (add64 s.vtime_now)
    (task_deadline_congr _ p _ { c with avg_runtime := SLICE_MIN cfg }
      (by simp [task_weight]) rfl rfl)

theorem event_on_task_deadline (cfg : Config) (st : State) (j : Nat) (p : task_struct)
    (c : task_ctx) (ev : Event) :
    ∃ c1, (event_on_task cfg st j ⟨p, some c⟩ ev).stor = some c1 ∧
      (c1.deadline = c.deadline ∨ writes_deadline cfg st j ⟨p, some c⟩ c ev) := by
  have hsame : ∃ c1, (⟨p, some c⟩ : Task).stor = some c1 ∧
      (c1.deadline = c.deadline ∨ writes_deadline cfg st j ⟨p, some c⟩ c ev) :=
    ⟨c, rfl, Or.inl rfl⟩
  cases ev with
  | fsync i =>
    simp only [event_on_task]
    split_ifs
    · exact ⟨{ c with avg_nvcsw := 0 }, rfl, Or.inl rfl⟩
    · exact hsame
  | select_cpu i cpu is_idle => exact hsame
  | enqueue i enq_flags =>
    simp only [event_on_task]
    split_ifs with hij
    · subst hij
      rw [flash_enqueue_task]
      by_cases hf : kthread_fast_path cfg ⟨p, some c⟩ = true
      · rw [if_pos hf]
        exact ⟨c, rfl, Or.inl rfl⟩
      · rw [if_neg hf]
        refine ⟨_, rfl, ?_⟩
        rw [task_vtime_deadline]
        by_cases hb : time_before p.scx.dsq_vtime (sub64 st.vtime_now (task_lag cfg p c)) = true
        · exact Or.inr (Or.inr (Or.inr ⟨enq_flags, rfl, by simpa using hf, hb⟩))
        · rw [if_neg hb]
          exact Or.inl rfl
    · exact hsame
  | dispatch cpu prev =>
    simp only [event_on_task]
    split_ifs
    · unfold flash_dispatch
      split
      · exact hsame
      · dsimp only
        split_ifs
        · exact ⟨c, by rw [Option.getD_some, task_refill_slice_stor], Or.inl rfl⟩
        · exact hsame
    · exact hsame
  | running i now =>
    simp only [event_on_task]
    split_ifs
    · unfold flash_running
      simp only [try_lookup_task_ctx, task_refill_slice_stor]
      exact ⟨_, rfl, Or.inl rfl⟩
    · exact hsame
  | stopping i now r =>
    simp only [event_on_task]
    split_ifs with hij
    · subst hij
      obtain ⟨c1, hc1, -⟩ := flash_stopping_accounting_fields now p c r
      exact ⟨c1, hc1, Or.inr (Or.inl ⟨now, r, rfl⟩)⟩
    · exact hsame
  | runnable i enq_flags =>
    simp only [event_on_task]
    split_ifs
    · exact ⟨{ c with sum_runtime := 0 }, rfl, Or.inl rfl⟩
    · exact hsame
  | enable i now =>
    simp only [event_on_task]
    split_ifs with hij
    · subst hij
      obtain ⟨c1, hc1, -⟩ := flash_enable_deadline cfg now st p c
      exact ⟨c1, hc1, Or.inr (Or.inr (Or.inl ⟨now, rfl⟩))⟩
    · exact hsame
  | init_task i alloc_ok =>
    simp only [event_on_task]
    split_ifs
    · exact ⟨c, rfl, Or.inl rfl⟩
    · exact hsame
  | init nr err => exact hsame
  | exit ei => exact hsame

/-- C13, amended. For a task with a context and a call of `flash_stopping` whose
`u64` additions do not wrap: the task's vtime after the call is at least its vtime
before; the deadline after the call is the new vtime plus the recomputed offset
`task_deadline`, so it is at least the new vtime; and it is at least the deadline
before the call whenever the recomputed offset is at least the distance of the old
deadline from the old vtime (otherwise it may retreat). The calls that write the
deadline of a task with a context are `flash_stopping` on it (new vtime plus
recomputed offset), `flash_enable` on it (`vtime_now + task_deadline` with
`avg_runtime = SLICE_MIN`, whatever the deadline was) and the floor re-basing of
`task_vtime`, reached from `flash_enqueue` on it when the kernel-thread fast path
is not taken and the task's vtime is before `vtime_now - task_lag` (floor plus
`task_deadline`); every other call of the policy, and every call on another task,
keeps the context and leaves its deadline unchanged. -/
theorem flash_stopping_deadline_advance (cfg : Config) (now : Nat) (p : task_struct)
    (tctx : task_ctx) (runnable : Bool) (s : State) (enq_flags : Nat) (sys : System)
    (ev : Event) (i : Nat) :
    (p.scx.dsq_vtime + mul64 (sub64 now tctx.last_run_at) 100 / task_weight p tctx +
        stopping_offset now p tctx < 18446744073709551616 →
      ∃ c, (flash_stopping now ⟨p, some tctx⟩ runnable).stor = some c ∧
        p.scx.dsq_vtime ≤ (flash_stopping now ⟨p, some tctx⟩ runnable).p.scx.dsq_vtime ∧
        c.deadline = (flash_stopping now ⟨p, some tctx⟩ runnable).p.scx.dsq_vtime +
          stopping_offset now p tctx ∧
        (flash_stopping now ⟨p, some tctx⟩ runnable).p.scx.dsq_vtime ≤ c.deadline ∧
        (tctx.deadline ≤ p.scx.dsq_vtime + stopping_offset now p tctx →
          tctx.deadline ≤ c.deadline)) ∧
    (∃ c, (flash_stopping now ⟨p, some tctx⟩ runnable).stor = some c ∧
      c.deadline = add64 (flash_stopping now ⟨p, some tctx⟩ runnable).p.scx.dsq_vtime
        (stopping_offset now p tctx)) ∧
    (∃ c, (flash_enable cfg now s ⟨p, some tctx⟩).2.stor = some c ∧
      c.deadline =
        add64 s.vtime_now (task_deadline p { tctx with avg_runtime := SLICE_MIN cfg })) ∧
    (kthread_fast_path cfg ⟨p, some tctx⟩ = false →
      ∃ c, (flash_enqueue cfg s ⟨p, some tctx⟩ enq_flags).2.stor = some c ∧
        c.deadline =
          (if time_before p.scx.dsq_vtime (sub64 s.vtime_now (task_lag cfg p tctx)) = true then
            add64 (sub64 s.vtime_now (task_lag cfg p tctx)) (task_deadline p tctx)
          else tctx.deadline)) ∧
    (∀ t c, sys.tasks[i]? = some t → t.stor = some c →
      ∃ t1 c1, (step cfg sys ev).tasks[i]? = some t1 ∧ t1.stor = some c1 ∧
        (c1.deadline = c.deadline ∨ writes_deadline cfg sys.st i t c ev)) := by
  refine ⟨flash_stopping_deadline_no_wrap now p tctx runnable, ?_,
    flash_enable_deadline cfg now s p tctx, ?_, ?_⟩
  · obtain ⟨c, hc, -, -, -, hd, -, -⟩ := flash_stopping_accounting_fields now p tctx runnable
    exact ⟨c, hc, hd⟩
  · intro hf
    rw [flash_enqueue_task, hf]
    exact ⟨_, rfl, task_vtime_deadline cfg s.vtime_now p tctx⟩
  · intro t c ht hc
    obtain ⟨tp, tstor⟩ := t
    simp only at hc
    subst hc
    obtain ⟨c1, hc1, hcase⟩ := event_on_task_deadline cfg sys.st i tp c ev
    exact ⟨_, c1, step_task_eq cfg sys ev i _ ht, hc1, hcase⟩

/-- A system whose only task is `enabled_running_task`. -/
def running_system : System := ⟨state_queued 1000 0, [enabled_running_task], 0, none⟩

/-- Witness of C13 (amended): the task stops after a run of 4 ms, longer than its
average, and its deadline advances; the last conjunct is applied to a call of the
fsync probe on the task. -/
theorem flash_stopping_deadline_advance_witness :
    enabled_running_task = ⟨enabled_running_task.p, some enabled_running_ctx⟩ ∧
      (∃ c, (flash_stopping 4000010 ⟨enabled_running_task.p, some enabled_running_ctx⟩
          true).stor = some c ∧
        enabled_running_ctx.deadline ≤ c.deadline) ∧
      ∃ t1 c1, (step (default_config 1000) running_system (Event.fsync 0)).tasks[0]? = some t1 ∧
        t1.stor = some c1 ∧
        (c1.deadline = enabled_running_ctx.deadline ∨
          writes_deadline (default_config 1000) running_system.st 0 enabled_running_task
            enabled_running_ctx (Event.fsync 0)) :=
  ⟨by decide,
    match (flash_stopping_deadline_advance (default_config 1000) 4000010 enabled_running_task.p
      enabled_running_ctx true (state_queued 1000 0) 0 running_system (Event.fsync 0) 0).1
      (by decide) with
    | ⟨c, hc, _, _, _, h⟩ => ⟨c, hc, h (by decide)⟩,
    (flash_stopping_deadline_advance (default_config 1000) 4000010 enabled_running_task.p
      enabled_running_ctx true (state_queued 1000 0) 0 running_system (Event.fsync 0) 0).2.2.2.2
      enabled_running_task enabled_running_ctx (by decide) (by decide)⟩

end ScxFlash
